import Mathlib

/-!
Shallow embedding of the HR Candidate Review Tool backend
(`src/backend/main.py` together with the `Candidate` model of
`src/backend/database.py`), and proofs about its query engine
(`filter_candidates`), mutators (`update_status`, `import_candidates`,
`seed_data`) and profile renderer (`generate_pdf`).

Modelling conventions:
* Machine strings are Lean `String`; every operation taken from Python
  (`split`, `int()`, `str.replace`, `str.title()`, truthiness, `json.loads`,
  `json.dumps`) is re-implemented structurally on `List Char` so that all
  definitions evaluate inside the kernel.
* SQLAlchemy rows become a `Candidate` structure, the table a
  `List Candidate`; a request's session is the explicit store value passed
  in and the store value returned (commit), an exception leaves the store
  unchanged (the session of `get_db` is closed without commit).
* `datetime` values are `PyDateTime` records compared lexicographically,
  exactly as SQLite compares the stored timestamps.
* Python `float` ratings are modelled as `Rat`; the ratings this program
  stores (steps of 0.1 in [0,5]) are represented exactly.
* `weasyprint.HTML(...).write_pdf()` is an external library call; the model
  stops at the fully composed `html_content` string that is handed to it,
  plus the response metadata (`filename`) and, for the hyperlink theorems,
  the list of href targets in composition order.
-/

/-! ### Python string primitives -/

/-- Model of Python `str.split(sep)` for a one-character separator:
splits at every occurrence, keeping empty parts. -/
def pySplitChar (sep : Char) : List Char → List (List Char)
  | [] => [[]]
  | c :: cs =>
    let r := pySplitChar sep cs
    if c = sep then [] :: r
    else
      match r with
      | [] => [[c]]
      | p :: ps => (c :: p) :: ps

/-- Whitespace stripped by Python `int(str)` before parsing. -/
def isPySpace (c : Char) : Bool :=
  c = ' ' || c = '\t' || c = '\n' || c = '\r' || c = '\x0b' || c = '\x0c'

/-- Drops leading Python whitespace. -/
def dropPySpace : List Char → List Char
  | [] => []
  | c :: cs => if isPySpace c then dropPySpace cs else c :: cs

/-- Strips Python whitespace from both ends. -/
def stripPySpace (cs : List Char) : List Char :=
  ((dropPySpace cs.reverse).reverse |> dropPySpace)

/-- Numeric value of a decimal digit character. -/
def charDigitVal (c : Char) : Nat := c.toNat - 48

/-- Value of a most-significant-first digit string. -/
def digitsVal (ds : List Char) : Nat :=
  ds.foldl (fun acc c => acc * 10 + charDigitVal c) 0

/-- Model of Python `int(str)`: optional surrounding whitespace, optional
sign, then decimal digits; anything else raises `ValueError` (`none`).
Underscore digit separators, accepted by Python between digits, are not
modelled; no claim involves them. -/
def pyInt (cs : List Char) : Option Int :=
  match stripPySpace cs with
  | [] => none
  | c :: ds =>
    if c = '+' then
      if ds ≠ [] ∧ ds.all Char.isDigit then some (digitsVal ds : Nat) else none
    else if c = '-' then
      if ds ≠ [] ∧ ds.all Char.isDigit then some (-(digitsVal ds : Nat)) else none
    else if (c :: ds).all Char.isDigit then some (digitsVal (c :: ds) : Nat) else none

/-- Model of Python `str.replace(old, new)` for a one-character `old`
(`str.replace` on a one-character pattern rewrites every occurrence). -/
def replaceCharData (old : Char) (new : List Char) : List Char → List Char
  | [] => []
  | c :: cs => (if c = old then new else [c]) ++ replaceCharData old new cs

/-- String wrapper for `replaceCharData`. -/
def pyReplaceChar (old : Char) (new : String) (s : String) : String :=
  ⟨replaceCharData old new.data s.data⟩

/-- Markup escaping used on attachment URLs in `generate_pdf`
(line 432): `url.replace("&", "&amp;").replace("<", "&lt;").replace(">",
"&gt;")`. -/
def pyEscape (s : String) : String :=
  pyReplaceChar '>' "&gt;" (pyReplaceChar '<' "&lt;" (pyReplaceChar '&' "&amp;" s))

/-- ASCII lower-casing of a character, as SQLite `ilike` compares. -/
def asciiLower (c : Char) : Char :=
  if 'A' ≤ c ∧ c ≤ 'Z' then Char.ofNat (c.toNat + 32) else c

/-- Whether `pre` is an initial segment, by character equality. -/
def leadsData : List Char → List Char → Bool
  | [], _ => true
  | _ :: _, [] => false
  | p :: ps, c :: cs => p = c && leadsData ps cs

/-- Whether `needle` occurs contiguously inside `hay`. -/
def occursData (needle : List Char) : List Char → Bool
  | [] => leadsData needle []
  | c :: cs => leadsData needle (c :: cs) || occursData needle cs

/-- Model of SQLAlchemy `column.ilike(f"%{term}%")`: case-insensitive
containment. SQL wildcard characters inside `term` itself are not
modelled; no claim supplies them. -/
def ilikeContains (value term : String) : Bool :=
  occursData (term.data.map asciiLower) (value.data.map asciiLower)

/-- Lexicographic order on lists, comparing elements through a numeric
key. -/
def lexLeBy {α : Type} (f : α → Nat) : List α → List α → Bool
  | [], _ => true
  | _ :: _, [] => false
  | a :: as_, b :: bs =>
    if f a < f b then true
    else if f b < f a then false
    else lexLeBy f as_ bs

/-- Byte-lexicographic order on character lists (the BINARY collation
SQLite sorts text by). -/
def lexLeChar : List Char → List Char → Bool := lexLeBy Char.toNat

/-- Lexicographic order on strings. -/
def strLe (a b : String) : Bool := lexLeChar a.data b.data

/-- Lexicographic order on lists of naturals. -/
def lexLeNat : List Nat → List Nat → Bool := lexLeBy id

/-- Model of Python `str.title()`: each maximal run of letters is
capitalised on its first letter, the rest lower-cased (ASCII letters; the
link-map keys this is applied to are ASCII). -/
def pyTitleGo : Bool → List Char → List Char
  | _, [] => []
  | prevAlpha, c :: cs =>
    if c.isAlpha then
      (if prevAlpha then (asciiLower c) else c.toUpper) :: pyTitleGo true cs
    else
      c :: pyTitleGo false cs

/-- String wrapper for `pyTitleGo`. -/
def pyTitle (s : String) : String := ⟨pyTitleGo false s.data⟩

/-! ### JSON values, `json.loads` and `json.dumps` -/

/-- JSON values as Python's `json` module materialises them. Numbers are
restricted to integers: every JSON number this repository stores or parses
is an integer, and no claim involves fractional or exponent literals. -/
inductive Json where
  | null : Json
  | bool : Bool → Json
  | num : Int → Json
  | str : String → Json
  | arr : List Json → Json
  | obj : List (String × Json) → Json

/-- Whitespace skipped between JSON tokens. -/
def skipJsonWs : List Char → List Char
  | [] => []
  | c :: cs => if c = ' ' ∨ c = '\t' ∨ c = '\n' ∨ c = '\r' then skipJsonWs cs else c :: cs

/-- Body of a JSON string after the opening quote, returning the decoded
characters and the rest of the input. The escapes of this repository's
data are covered; `\uXXXX` escapes are not modelled (no claim uses them). -/
def parseJsonStrBody : List Char → Option (List Char × List Char)
  | [] => none
  | '"' :: rest => some ([], rest)
  | '\\' :: e :: rest =>
    (match e with
     | '"' => some '"'
     | '\\' => some '\\'
     | '/' => some '/'
     | 'n' => some '\n'
     | 't' => some '\t'
     | 'r' => some '\r'
     | _ => none).bind fun c =>
      (parseJsonStrBody rest).map fun (p : List Char × List Char) => (c :: p.1, p.2)
  | '\\' :: [] => none
  | c :: rest =>
    (parseJsonStrBody rest).map fun (p : List Char × List Char) => (c :: p.1, p.2)

/-- Splits leading decimal digits. -/
def takeDigits : List Char → (List Char × List Char)
  | [] => ([], [])
  | c :: cs =>
    if c.isDigit then
      let p := takeDigits cs
      (c :: p.1, p.2)
    else ([], c :: cs)

/-- Parses a JSON value from the input, with `fuel` bounding recursion
depth and element count. After `[`-and-a-value, the remaining elements are
parsed by re-entering the array rule, so `fuel` twice the input length is
always enough. -/
def parseJsonVal : Nat → List Char → Option (Json × List Char)
  | 0, _ => none
  | fuel + 1, input =>
    match skipJsonWs input with
    | 'n' :: 'u' :: 'l' :: 'l' :: rest => some (.null, rest)
    | 't' :: 'r' :: 'u' :: 'e' :: rest => some (.bool true, rest)
    | 'f' :: 'a' :: 'l' :: 's' :: 'e' :: rest => some (.bool false, rest)
    | '"' :: rest =>
      (parseJsonStrBody rest).map fun p => (.str ⟨p.1⟩, p.2)
    | '[' :: rest =>
      (match skipJsonWs rest with
       | ']' :: rest2 => some (.arr [], rest2)
       | _ =>
         (parseJsonVal fuel rest).bind fun (v, r1) =>
           match skipJsonWs r1 with
           | ',' :: r2 =>
             (match skipJsonWs r2 with
              | ']' :: _ => none
              | _ =>
                (parseJsonVal fuel ('[' :: r2)).bind fun (tail, r3) =>
                  match tail with
                  | .arr vs => some (.arr (v :: vs), r3)
                  | _ => none)
           | ']' :: r2 => some (.arr [v], r2)
           | _ => none)
    | '{' :: rest =>
      (match skipJsonWs rest with
       | '}' :: rest2 => some (.obj [], rest2)
       | '"' :: rest2 =>
         (parseJsonStrBody rest2).bind fun (k, r1) =>
           match skipJsonWs r1 with
           | ':' :: r2 =>
             (parseJsonVal fuel r2).bind fun (v, r3) =>
               match skipJsonWs r3 with
               | ',' :: r4 =>
                 (match skipJsonWs r4 with
                  | '"' :: _ =>
                    (parseJsonVal fuel ('{' :: r4)).bind fun (tail, r5) =>
                      match tail with
                      | .obj kvs => some (.obj ((⟨k⟩, v) :: kvs), r5)
                      | _ => none
                  | _ => none)
               | '}' :: r4 => some (.obj [(⟨k⟩, v)], r4)
               | _ => none
           | _ => none
       | _ => none)
    | '-' :: rest =>
      (match takeDigits rest with
       | ([], _) => none
       | (ds, r1) =>
         match r1 with
         | '.' :: _ => none
         | 'e' :: _ => none
         | 'E' :: _ => none
         | _ => some (.num (-(digitsVal ds : Nat)), r1))
    | c :: rest =>
      if c.isDigit then
        (match takeDigits (c :: rest) with
         | (ds, r1) =>
           match r1 with
           | '.' :: _ => none
           | 'e' :: _ => none
           | 'E' :: _ => none
           | _ => some (.num (digitsVal ds : Nat), r1))
      else none
    | [] => none

/-- Model of Python `json.loads`: parse one value and require the rest of
the input to be whitespace. -/
def jsonParse (s : String) : Option Json :=
  (parseJsonVal (2 * s.data.length + 4) s.data).bind fun (v, rest) =>
    if skipJsonWs rest = [] then some v else none

/-- Escapes the body of a serialised JSON string (`json.dumps`); quote,
backslash and the common control characters, as this repository's data
needs. Non-ASCII escaping (`ensure_ascii`) is not modelled. -/
def dumpsStrBody : List Char → List Char
  | [] => []
  | c :: cs =>
    (if c = '"' then ['\\', '"']
     else if c = '\\' then ['\\', '\\']
     else if c = '\n' then ['\\', 'n']
     else if c = '\t' then ['\\', 't']
     else if c = '\r' then ['\\', 'r']
     else [c]) ++ dumpsStrBody cs

/-- Serialised form of a JSON string. -/
def dumpsStr (s : String) : String := "\"" ++ ⟨dumpsStrBody s.data⟩ ++ "\""

mutual

/-- Model of Python `json.dumps` with its default separators. -/
def jsonDumps : Json → String
  | .null => "null"
  | .bool true => "true"
  | .bool false => "false"
  | .num n => toString n
  | .str s => dumpsStr s
  | .arr xs => "[" ++ jsonDumpsList xs ++ "]"
  | .obj kvs => "\x7b" ++ jsonDumpsMembers kvs ++ "\x7d"

/-- Comma-separated serialised array elements. -/
def jsonDumpsList : List Json → String
  | [] => ""
  | [v] => jsonDumps v
  | v :: vs => jsonDumps v ++ ", " ++ jsonDumpsList vs

/-- Comma-separated serialised object members. -/
def jsonDumpsMembers : List (String × Json) → String
  | [] => ""
  | [(k, v)] => dumpsStr k ++ ": " ++ jsonDumps v
  | (k, v) :: kvs => dumpsStr k ++ ": " ++ jsonDumps v ++ ", " ++ jsonDumpsMembers kvs

end

/-- Python truthiness of a decoded JSON value (`if urls:`, `if skills:`). -/
def pyTruthy : Json → Bool
  | .null => false
  | .bool b => b
  | .num n => n ≠ 0
  | .str s => ¬s.data.isEmpty
  | .arr xs => ¬xs.isEmpty
  | .obj kvs => ¬kvs.isEmpty

mutual

/-- Python `repr` of a decoded JSON value (single-quoted strings; string
contents needing escapes are not modelled). -/
def pyRepr : Json → String
  | .null => "None"
  | .bool true => "True"
  | .bool false => "False"
  | .num n => toString n
  | .str s => "'" ++ s ++ "'"
  | .arr xs => "[" ++ pyReprList xs ++ "]"
  | .obj kvs => "\x7b" ++ pyReprMembers kvs ++ "\x7d"

/-- Comma-separated element representations. -/
def pyReprList : List Json → String
  | [] => ""
  | [v] => pyRepr v
  | v :: vs => pyRepr v ++ ", " ++ pyReprList vs

/-- Comma-separated member representations. -/
def pyReprMembers : List (String × Json) → String
  | [] => ""
  | [(k, v)] => "'" ++ k ++ "': " ++ pyRepr v
  | (k, v) :: kvs => "'" ++ k ++ "': " ++ pyRepr v ++ ", " ++ pyReprMembers kvs

end

/-- Python `str()` of a decoded JSON value, as an f-string interpolates
it. -/
def pyStr : Json → String
  | .null => "None"
  | .bool true => "True"
  | .bool false => "False"
  | .num n => toString n
  | .str s => s
  | .arr xs => pyRepr (.arr xs)
  | .obj kvs => pyRepr (.obj kvs)

/-- Model of Python `sep.join(x)`: joins an iterable of strings; a list of
strings joins its elements, a string joins its characters, a dict joins
its keys; any other value (or a list with a non-string element) raises
`TypeError` (`none`). -/
def pyJoin (sep : String) : Json → Option String
  | .arr xs =>
    (xs.mapM fun v => match v with | Json.str s => some s | _ => (none : Option String)).map
      (String.intercalate sep)
  | .str s => some (String.intercalate sep (s.data.map fun c => String.mk [c]))
  | .obj kvs => some (String.intercalate sep (kvs.map (·.1)))
  | _ => none

/-- Model of `d.get(key, default)` on a decoded JSON value: requires a
dict (anything else raises `AttributeError`, `none`). -/
def pyDictGet (v : Json) (key : String) (dflt : Json) : Option Json :=
  match v with
  | .obj kvs => some (((kvs.find? fun kv => kv.1 = key).map (·.2)).getD dflt)
  | _ => none

/-- Elements produced by iterating a decoded JSON value with `for`: a list
yields its elements, a string its characters, a dict its keys; other
values raise `TypeError` (`none`). -/
def pyIter : Json → Option (List Json)
  | .arr xs => some xs
  | .str s => some (s.data.map fun c => .str ⟨[c]⟩)
  | .obj kvs => some (kvs.map fun kv => .str kv.1)
  | _ => none

/-! ### Datetimes -/

/-- Timestamp as `datetime.datetime` stores it (microseconds are carried
by the sub-second field; the comparisons this program makes are
lexicographic on these fields, as SQLite compares the stored text). -/
structure PyDateTime where
  year : Nat
  month : Nat
  day : Nat
  hour : Nat
  minute : Nat
  second : Nat
deriving DecidableEq, Repr

/-- Field list compared lexicographically. -/
def PyDateTime.key (d : PyDateTime) : List Nat :=
  [d.year, d.month, d.day, d.hour, d.minute, d.second]

/-- Order on timestamps. -/
def dateLe (a b : PyDateTime) : Bool := lexLeNat a.key b.key

/-- Strict order on timestamps. -/
def dateLt (a b : PyDateTime) : Bool := dateLe a b && !(dateLe b a)

/-- The value of `datetime(year, month, 1)` in `filter_candidates`. -/
def pyDatetime (year month : Nat) : PyDateTime := ⟨year, month, 1, 0, 0, 0⟩

/-! ### The candidate store

`database.py` declares the `candidates` table; `main.py`'s endpoints
additionally read and seed the extended profile columns (`basic_info`,
`skills`, `education`, `experience_details`, `projects`, `svg_photo`)
that `CandidateResponse` exposes, so the row model carries them all.
The table is the list of rows; each request's session is modelled by
passing the store in and returning the committed store, and a request
that raises leaves the store unchanged (`get_db` closes the session,
discarding uncommitted work). -/

structure Candidate where
  id : Nat
  name : String
  email : String
  phone : String
  status : String
  applied_role : String
  experience : String
  application_date : PyDateTime
  urls : Option String
  rating : Rat
  stage : String
  location : Option String
  attachments : Nat
  basic_info : Option String
  skills : Option String
  education : Option String
  experience_details : Option String
  projects : Option String
  svg_photo : Option String
deriving DecidableEq, Repr

/-- Stage enumeration (main.py line 28). -/
def STAGES : List String :=
  ["Screening", "Design Challenge", "Interview", "HR Round", "Hired", "Rejected"]

/-- Status enumeration (main.py line 29). -/
def STATUSES : List String :=
  ["Pending", "In Process", "Selected", "Rejected", "Accepted"]

/-- Valid sort fields (main.py line 30). -/
def SORT_FIELDS : List String := ["name", "application_date", "rating"]

/-- Default sort field (main.py line 31). -/
def DEFAULT_SORT : String := "application_date"

/-- An `HTTPException` as raised by the endpoints. -/
structure HTTPError where
  status_code : Nat
  detail : String
deriving DecidableEq, Repr

/-- Python `repr` of a list of strings, as an f-string interpolates
`STATUSES` and friends into an error detail. -/
def pyReprStrList (xs : List String) : String :=
  "[" ++ String.intercalate ", " (xs.map fun s => "'" ++ s ++ "'") ++ "]"

/-- Truthiness of an optional query/body string (`if status:`): `None`
and the empty string are falsy. -/
def optTruthy : Option String → Bool
  | none => false
  | some s => ¬s.data.isEmpty

/-! ### Query engine: `filter_candidates` (main.py lines 169-254) -/

/-- The half-open interval computed from a `month_year` parameter, or
`none` when the `try` body raises `ValueError`: the split must give
exactly two integer parts with `1 ≤ month ≤ 12` and `1900 ≤ year ≤ 9999`;
December rolls the end of the interval into January of `year + 1`. -/
def monthYearBounds (s : String) : Option (PyDateTime × PyDateTime) :=
  match pySplitChar '-' s.data with
  | [ys, ms] =>
    match pyInt ys, pyInt ms with
    | some y, some m =>
      if 1 ≤ m ∧ m ≤ 12 ∧ 1900 ≤ y ∧ y ≤ 9999 then
        some (pyDatetime y.toNat m.toNat,
          if m = 12 then pyDatetime (y.toNat + 1) 1 else pyDatetime y.toNat (m.toNat + 1))
      else none
    | _, _ => none
  | _ => none

/-- Ascending-name comparator (`order_by(Candidate.name)`). -/
def nameLe (a b : Candidate) : Bool := strLe a.name b.name

/-- Descending-date comparator (`Candidate.application_date.desc()`). -/
def dateDesc (a b : Candidate) : Bool := dateLe b.application_date a.application_date

/-- Descending-rating comparator (`Candidate.rating.desc()`). -/
def ratingDesc (a b : Candidate) : Bool := decide (b.rating ≤ a.rating)

/-- Applies `ORDER BY` for the validated sort field. `ORDER BY` promises a
list sorted by the key (ties in unspecified order); the model realises it
with insertion sort. -/
def sortCandidates (sort_by : String) (l : List Candidate) : List Candidate :=
  if sort_by = "name" then List.insertionSort (fun a b => nameLe a b = true) l
  else if sort_by = "application_date" then
    List.insertionSort (fun a b => dateDesc a b = true) l
  else List.insertionSort (fun a b => ratingDesc a b = true) l

/-- The conjunction of the four optional row filters of
`filter_candidates` (lines 208-220), each applied only when its
parameter is truthy. -/
def baseFilters (db : List Candidate) (role status stage search : Option String) :
    List Candidate :=
  let q1 := if optTruthy role then
      db.filter (fun c => decide (c.applied_role = role.getD "")) else db
  let q2 := if optTruthy status then
      q1.filter (fun c => decide (c.status = status.getD "")) else q1
  let q3 := if optTruthy stage then
      q2.filter (fun c => decide (c.stage = stage.getD "")) else q2
  if optTruthy search then
    q3.filter (fun c =>
      ilikeContains c.name (search.getD "") ||
      ilikeContains c.email (search.getD "") ||
      ilikeContains c.applied_role (search.getD ""))
  else q3

/-- The `month_year` window of `filter_candidates` (lines 222-243):
applied only when the parameter is truthy, keeping rows with
`start_date <= application_date < end_date`; a `ValueError` in the
parse becomes the 400 response. -/
def monthFilter (l : List Candidate) : Option String → Except HTTPError (List Candidate)
  | none => .ok l
  | some s =>
    if s.data.isEmpty then .ok l
    else
      match monthYearBounds s with
      | some (start_date, end_date) =>
        .ok (l.filter fun c =>
          dateLe start_date c.application_date && dateLt c.application_date end_date)
      | none => .error ⟨400, "Invalid month_year format. Must be YYYY-MM"⟩

/-- Model of the `GET /candidates/filter/` handler: validates `status`,
`stage` and `sort_by`, conjoins the optional filters, applies the
`month_year` window, and sorts. The source appends the Python exception
text to the `month_year` error detail; the model keeps the fixed prefix
of that detail. -/
def filter_candidates (db : List Candidate) (role status stage search : Option String)
    (sort_by : String := DEFAULT_SORT) (month_year : Option String := none) :
    Except HTTPError (List Candidate) :=
  if optTruthy status ∧ status.getD "" ∉ STATUSES then
    .error ⟨400, "Invalid status. Must be one of: " ++ pyReprStrList STATUSES⟩
  else if optTruthy stage ∧ stage.getD "" ∉ STAGES then
    .error ⟨400, "Invalid stage. Must be one of: " ++ pyReprStrList STAGES⟩
  else if sort_by ∉ SORT_FIELDS then
    .error ⟨400, "Invalid sort field. Must be one of: " ++ pyReprStrList SORT_FIELDS⟩
  else
    (monthFilter (baseFilters db role status stage search) month_year).map
      (sortCandidates sort_by)

/-! ### Mutator: `update_status` (main.py lines 305-338) -/

/-- Body of a `PATCH /candidates/{id}/status/` request. -/
structure CandidateUpdate where
  status : Option String := none
  stage : Option String := none
  rating : Option Rat := none
deriving DecidableEq, Repr

/-- Field application of `update_status`: `status` and `stage` are applied
when truthy (`if update.status:`), `rating` when present
(`if update.rating is not None:`). -/
def applyUpdate (update : CandidateUpdate) (c : Candidate) : Candidate :=
  let c1 := match update.status with
    | some s => if ¬s.data.isEmpty then { c with status := s } else c
    | none => c
  let c2 := match update.stage with
    | some s => if ¬s.data.isEmpty then { c1 with stage := s } else c1
    | none => c1
  match update.rating with
  | some r => { c2 with rating := r }
  | none => c2

/-- Model of the `PATCH /candidates/{id}/status/` handler: look the row up
by primary key, mutate it, commit. (`id` is the primary key, so the
replaced row is unique.) -/
def update_status (candidate_id : Nat) (update : CandidateUpdate) (db : List Candidate) :
    Except HTTPError (Candidate × List Candidate) :=
  match db.find? (fun c => decide (c.id = candidate_id)) with
  | none => .error ⟨404, "Candidate not found"⟩
  | some c =>
    let c' := applyUpdate update c
    .ok (c', db.map fun x => if x.id = candidate_id then c' else x)

/-! ### Bulk import: `import_candidates` (main.py lines 256-303) -/

/-- A candidate descriptor: one decoded JSON object of the uploaded
array (keys unique, as `json.loads` produces them). -/
abbrev Descriptor := List (String × Json)

/-- Model of `candidate_data[k]` / `candidate_data.get(k)`. -/
def descGet (d : Descriptor) (k : String) : Option Json :=
  (d.find? fun kv => kv.1 = k).map (·.2)

/-- Model of Python `float(str)` for plain decimal literals: optional
surrounding whitespace and sign, digits with at most one point. Exponent
and special forms are not modelled; no claim involves them. -/
def pyFloatOfString (s : String) : Option Rat :=
  let core : List Char → Option Rat := fun cs =>
    match pySplitChar '.' cs with
    | [ip] =>
      if ip ≠ [] ∧ ip.all Char.isDigit then some ((digitsVal ip : Int) : Rat) else none
    | [ip, fp] =>
      if (ip ≠ [] ∨ fp ≠ []) ∧ ip.all Char.isDigit ∧ fp.all Char.isDigit then
        some (mkRat (digitsVal (ip ++ fp) : Int) (10 ^ fp.length))
      else none
    | _ => none
  match stripPySpace s.data with
  | '+' :: cs => core cs
  | '-' :: cs => (core cs).map (fun q => -q)
  | cs => core cs

/-- Model of Python `float(x)` on a decoded JSON value. -/
def pyFloat : Json → Option Rat
  | .num n => some (n : Rat)
  | .bool b => some (if b then 1 else 0)
  | .str s => pyFloatOfString s
  | _ => none

/-- The `location` column value: `candidate_data.get("location", None)`,
with a JSON `null` stored as SQL `NULL`. -/
def storeOptStr (v : Option Json) : Option String :=
  match v with
  | none => none
  | some .null => none
  | some v => some (pyStr v)

/-- The `urls` dict collected from the three optional link fields of a
descriptor (main.py lines 277-283), in insertion order. -/
def linkEntries (r cl pr : Option Json) : List (String × Json) :=
  (match r with | some v => [("resume", v)] | none => []) ++
  (match cl with | some v => [("cover_letter", v)] | none => []) ++
  (match pr with | some v => [("project", v)] | none => [])

/-- Row built from one descriptor, or `none` when reading it raises
(`KeyError` on a missing required field, or `float()` failing on
`rating`). The row still needs its primary key and its
`application_date` column default (`datetime.utcnow`). String columns
store the textual form of the supplied value. -/
def import_row (candidate_data : Descriptor) : Option (Nat → PyDateTime → Candidate) :=
  match descGet candidate_data "name" with
  | none => none
  | some name =>
    match descGet candidate_data "email" with
    | none => none
    | some email =>
      match descGet candidate_data "phone" with
      | none => none
      | some phone =>
        match descGet candidate_data "applied_role" with
        | none => none
        | some applied_role =>
          match descGet candidate_data "experience" with
          | none => none
          | some experience =>
            let urls : List (String × Json) :=
              linkEntries (descGet candidate_data "resume_url")
                (descGet candidate_data "cover_letter_url")
                (descGet candidate_data "project_url")
            match pyFloat ((descGet candidate_data "rating").getD (.num 0)) with
            | none => none
            | some rating =>
              some fun id now =>
                { id := id
                  name := pyStr name
                  email := pyStr email
                  phone := pyStr phone
                  applied_role := pyStr applied_role
                  experience := pyStr experience
                  status := pyStr ((descGet candidate_data "status").getD (.str "Pending"))
                  urls := if urls.isEmpty then none else some (jsonDumps (.obj urls))
                  rating := rating
                  stage := pyStr ((descGet candidate_data "stage").getD (.str "Screening"))
                  location := storeOptStr (descGet candidate_data "location")
                  attachments := urls.length
                  application_date := now
                  basic_info := none
                  skills := none
                  education := none
                  experience_details := none
                  projects := none
                  svg_photo := none }

/-- Next primary key the store assigns. -/
def nextId (db : List Candidate) : Nat := (db.map (·.id)).foldl max 0 + 1

/-- Model of the `POST /candidates/import/` handler: every descriptor is
turned into a pending row and a single `db.commit()` runs at the end, so
a descriptor that raises aborts the whole batch (the session is closed
without commit and no row of the batch is stored); the commit itself
fails — again leaving the store unchanged — when the email uniqueness
constraint would be violated. -/
def import_candidates (batch : List Descriptor) (now : PyDateTime) (db : List Candidate) :
    Except HTTPError (List Candidate) :=
  match batch.mapM import_row with
  | none => .error ⟨500, "malformed candidate descriptor"⟩
  | some mks =>
    let rows := mks.enum.map fun (p : Nat × (Nat → PyDateTime → Candidate)) =>
      p.2 (nextId db + p.1) now
    let db' := db ++ rows
    if ((db'.map (·.email)).Nodup : Prop) then .ok db'
    else .error ⟨500, "UNIQUE constraint failed: candidates.email"⟩

/-! ### Profile renderer: `generate_pdf` (main.py lines 340-635) -/

/-- Decimal digit character. -/
def digitChar (n : Nat) : Char :=
  ['0', '1', '2', '3', '4', '5', '6', '7', '8', '9'].getD n '0'

/-- Decimal digits of a natural, most significant first (`fuel`-bounded
worker; `n + 1` fuel always suffices). -/
def natDigitsGo : Nat → Nat → List Char
  | 0, _ => []
  | fuel + 1, n =>
    if n < 10 then [digitChar n] else natDigitsGo fuel (n / 10) ++ [digitChar (n % 10)]

/-- Python `str()` of a natural number. -/
def natStr (n : Nat) : String := ⟨natDigitsGo (n + 1) n⟩

/-- Python `str()` of an integer. -/
def intStr (n : Int) : String :=
  if n < 0 then "-" ++ natStr n.natAbs else natStr n.natAbs

/-- Zero-padded two-digit field (`%d`). -/
def pad2 (n : Nat) : String := if n < 10 then "0" ++ natStr n else natStr n

/-- Zero-padded four-digit year (`%Y`). -/
def pad4 (n : Nat) : String :=
  let ds := natDigitsGo (n + 1) n
  ⟨List.replicate (4 - ds.length) '0' ++ ds⟩

/-- Month names of `%B`. -/
def monthNames : List String :=
  ["January", "February", "March", "April", "May", "June", "July",
   "August", "September", "October", "November", "December"]

/-- Model of `application_date.strftime('%B %d, %Y')`. -/
def strftimeLong (d : PyDateTime) : String :=
  monthNames.getD (d.month - 1) "" ++ " " ++ pad2 d.day ++ ", " ++ pad4 d.year

/-- Fractional decimal digits of `r / den` (`fuel`-bounded; terminates
early when the remainder is exhausted). -/
def decDigitsGo : Nat → Nat → Nat → List Char
  | 0, _, _ => []
  | _ + 1, 0, _ => []
  | fuel + 1, r, den => digitChar (r * 10 / den) :: decDigitsGo fuel (r * 10 % den) den

/-- Python `str()` of the stored float rating. The ratings this program
stores have short terminating decimal expansions, printed exactly; 17
digits bound the expansion as Python's shortest-round-trip printing is
not modelled further. -/
def ratStrPy (q : Rat) : String :=
  let sign := if q < 0 then "-" else ""
  let n := q.num.natAbs
  let whole := n / q.den
  let rem := n % q.den
  if rem = 0 then sign ++ natStr whole ++ ".0"
  else sign ++ natStr whole ++ "." ++ ⟨decDigitsGo 17 rem q.den⟩

/-- The constant `css_styles` block (main.py lines 368-425). -/
def css_styles : String :=
  String.intercalate "\n"
    ["",
     "            <style>",
     "                body \x7b",
     "                    font-family: Arial, sans-serif;",
     "                    line-height: 1.6;",
     "                    color: #333;",
     "                    max-width: 800px;",
     "                    margin: 0 auto;",
     "                    padding: 20px;",
     "                \x7d",
     "                h1 \x7b",
     "                    color: #6E38E0;",
     "                    border-bottom: 2px solid #6E38E0;",
     "                    padding-bottom: 10px;",
     "                    margin-bottom: 30px;",
     "                \x7d",
     "                h2 \x7b",
     "                    color: #555;",
     "                    margin-top: 25px;",
     "                \x7d",
     "                .info-grid \x7b",
     "                    display: grid;",
     "                    grid-template-columns: repeat(2, 1fr);",
     "                    gap: 20px;",
     "                    margin-bottom: 30px;",
     "                \x7d",
     "                .info-item \x7b",
     "                    padding: 10px;",
     "                    background: #f8f8f8;",
     "                    border-radius: 5px;",
     "                \x7d",
     "                .label \x7b",
     "                    font-weight: bold;",
     "                    color: #666;",
     "                    margin-bottom: 5px;",
     "                \x7d",
     "                .value \x7b",
     "                    color: #333;",
     "                \x7d",
     "                .status \x7b",
     "                    display: inline-block;",
     "                    padding: 5px 10px;",
     "                    border-radius: 15px;",
     "                    background: #6E38E0;",
     "                    color: white;",
     "                \x7d",
     "                .attachments \x7b",
     "                    margin-top: 30px;",
     "                    padding: 20px;",
     "                    background: #f8f8f8;",
     "                    border-radius: 5px;",
     "                \x7d",
     "                a \x7b",
     "                    color: #6E38E0;",
     "                    text-decoration: none;",
     "                \x7d",
     "            </style>",
     "        "]

/-- One attachment entry (main.py lines 433-438): the link-type label is
title-cased and the escaped URL is both the href target and the link
text. -/
def urlItemHtml (url_type safe_url : String) : String :=
  String.intercalate "\n"
    ["",
     "                    <div class=\"info-item\">",
     "                        <div class=\"label\">" ++ pyTitle url_type ++ "</div>",
     "                        <div class=\"value\"><a href=\"" ++ safe_url ++ "\">" ++
       safe_url ++ "</a></div>",
     "                    </div>",
     "                "]

/-- The attachments block around the joined entries (main.py lines
440-447). -/
def urlSectionHtml (joined : String) : String :=
  String.intercalate "\n"
    ["",
     "                    <div class=\"attachments\">",
     "                        <h2>Attachments</h2>",
     "                        <div class=\"info-grid\">",
     "                            " ++ joined,
     "                        </div>",
     "                    </div>",
     "                "]

/-- The skills block (main.py lines 462-469). -/
def skillsSectionHtml (skills_html : String) : String :=
  String.intercalate "\n"
    ["",
     "                <div class=\"section\">",
     "                    <h2>Skills</h2>",
     "                    <div class=\"info-item\">",
     "                        <div class=\"value\">" ++ skills_html ++ "</div>",
     "                    </div>",
     "                </div>",
     "            "]

/-- One education entry (main.py lines 475-483). -/
def eduItemHtml (degree institution year_of_completion : String) : String :=
  String.intercalate "\n"
    ["",
     "                    <div class=\"info-item\">",
     "                        <div class=\"value\">",
     "                            <strong>" ++ degree ++ "</strong><br>",
     "                            " ++ institution ++ "<br>",
     "                            Year of Completion: " ++ year_of_completion,
     "                        </div>",
     "                    </div>",
     "                "]

/-- A titled `info-grid` block around joined entries: education (main.py
lines 484-491), experience (507-514) and projects (529-536) share this
shape. -/
def gridSectionHtml (title joined : String) : String :=
  String.intercalate "\n"
    ["",
     "                <div class=\"section\">",
     "                    <h2>" ++ title ++ "</h2>",
     "                    <div class=\"info-grid\">",
     "                        " ++ joined,
     "                    </div>",
     "                </div>",
     "            "]

/-- One experience entry (main.py lines 497-506). -/
def expItemHtml (company role duration description : String) : String :=
  String.intercalate "\n"
    ["",
     "                    <div class=\"info-item\">",
     "                        <div class=\"value\">",
     "                            <strong>" ++ company ++ "</strong><br>",
     "                            Role: " ++ role ++ "<br>",
     "                            Duration: " ++ duration ++ "<br>",
     "                            <p>" ++ description ++ "</p>",
     "                        </div>",
     "                    </div>",
     "                "]

/-- One project entry (main.py lines 520-528): the link value is embedded
as the href target exactly as stored. -/
def projItemHtml (name description link : String) : String :=
  String.intercalate "\n"
    ["",
     "                    <div class=\"info-item\">",
     "                        <div class=\"value\">",
     "                            <strong>" ++ name ++ "</strong><br>",
     "                            <p>" ++ description ++ "</p>",
     "                            <a href=\"" ++ link ++ "\" target=\"_blank\">Project Link</a>",
     "                        </div>",
     "                    </div>",
     "                "]

/-- Attachment entries and their escaped href targets, in link-map order
(main.py lines 430-438); `none` when a URL value is not a string
(`url.replace` raises `AttributeError`, caught only by the generic
handler). -/
def urlItemsGo : List (String × Json) → Option (List String × List String)
  | [] => some ([], [])
  | (url_type, v) :: rest =>
    match v with
    | .str u =>
      let safe_url := pyEscape u
      (urlItemsGo rest).map fun (p : List String × List String) =>
        (urlItemHtml url_type safe_url :: p.1, safe_url :: p.2)
    | _ => none

/-- The attachments section and its href targets, from the stored `urls`
column (main.py lines 360-365 and 428-447): a falsy or JSON-undecodable
column gives an empty link map; a decoded value that is truthy but not a
dict of string values raises into the generic handler (`none`). -/
def urlSectionOf (uopt : Option String) : Option (String × List String) :=
  match uopt with
  | none => some ("", [])
  | some s =>
    if s.data.isEmpty then some ("", [])
    else
      let urls := match jsonParse s with | some v => v | none => .obj []
      if pyTruthy urls then
        match urls with
        | .obj kvs =>
          (urlItemsGo kvs).map fun (p : List String × List String) =>
            (if p.1.isEmpty then "" else urlSectionHtml (String.join p.1), p.2)
        | _ => none
      else some ("", [])

/-- Decoded value of one optional profile column: a falsy column reads as
`[]` without parsing, otherwise `json.loads` runs (`none` =
`JSONDecodeError`). -/
def optFieldJson (f : Option String) : Option Json :=
  match f with
  | none => some (.arr [])
  | some s => if s.data.isEmpty then some (.arr []) else jsonParse s

/-- The single `try` of main.py lines 449-456: `skills`, `education`,
`experience_details` and `projects` are decoded together, and a
`JSONDecodeError` from any one of them resets all four to `[]`. -/
def parseProfileFields (c : Candidate) : Json × Json × Json × Json :=
  match optFieldJson c.skills, optFieldJson c.education,
        optFieldJson c.experience_details, optFieldJson c.projects with
  | some a, some b, some d, some e => (a, b, d, e)
  | _, _, _, _ => (.arr [], .arr [], .arr [], .arr [])

/-- The skills section (main.py lines 459-469): skipped when falsy,
otherwise `", ".join(skills)` (whose `TypeError` on a non-joinable value
reaches the generic handler). -/
def skillsSectionOf (skills : Json) : Option String :=
  if pyTruthy skills then (pyJoin ", " skills).map skillsSectionHtml
  else some ""

/-- The education section (main.py lines 471-491). -/
def eduSectionOf (education : Json) : Option String :=
  if pyTruthy education then do
    let items ← pyIter education
    let htmls ← items.mapM fun edu => do
      let degree ← pyDictGet edu "degree" (.str "")
      let institution ← pyDictGet edu "institution" (.str "")
      let yearc ← pyDictGet edu "year_of_completion" (.str "")
      pure (eduItemHtml (pyStr degree) (pyStr institution) (pyStr yearc))
    pure (gridSectionHtml "Education" (String.join htmls))
  else some ""

/-- The experience section (main.py lines 493-514). -/
def expSectionOf (experience_details : Json) : Option String :=
  if pyTruthy experience_details then do
    let items ← pyIter experience_details
    let htmls ← items.mapM fun exp => do
      let company ← pyDictGet exp "company" (.str "")
      let role ← pyDictGet exp "role" (.str "")
      let duration ← pyDictGet exp "duration" (.str "")
      let description ← pyDictGet exp "description" (.str "")
      pure (expItemHtml (pyStr company) (pyStr role) (pyStr duration) (pyStr description))
    pure (gridSectionHtml "Experience Details" (String.join htmls))
  else some ""

/-- The projects section and its href targets (main.py lines 516-536):
each entry's `proj.get('link', '#')` value is embedded verbatim as the
href target. -/
def projSectionOf (projects : Json) : Option (String × List String) :=
  if pyTruthy projects then do
    let items ← pyIter projects
    let pairs ← items.mapM fun proj => do
      let name ← pyDictGet proj "name" (.str "")
      let description ← pyDictGet proj "description" (.str "")
      let link ← pyDictGet proj "link" (.str "#")
      pure (projItemHtml (pyStr name) (pyStr description) (pyStr link), pyStr link)
    pure (gridSectionHtml "Projects" (String.join (pairs.map (·.1))),
          pairs.map (·.2))
  else some ("", [])

/-- The assembled `html_content` (main.py lines 539-610). -/
def htmlContentOf (candidate : Candidate) (skills_section education_section
    experience_section projects_section url_section : String) : String :=
  String.intercalate "\n"
    ["",
     "        <html>",
     "            <head>",
     "                <meta charset=\"UTF-8\">",
     "                " ++ css_styles,
     "                <style>",
     "                    .section \x7b",
     "                        margin-top: 30px;",
     "                        padding: 20px;",
     "                        background: #f8f8f8;",
     "                        border-radius: 5px;",
     "                    \x7d",
     "                </style>",
     "            </head>",
     "            <body>",
     "                <h1>Candidate Details</h1>",
     "                <div class=\"info-grid\">",
     "                    <div class=\"info-item\">",
     "                        <div class=\"label\">Name</div>",
     "                        <div class=\"value\">" ++ candidate.name ++ "</div>",
     "                    </div>",
     "                    <div class=\"info-item\">",
     "                        <div class=\"label\">Email</div>",
     "                        <div class=\"value\">" ++ candidate.email ++ "</div>",
     "                    </div>",
     "                    <div class=\"info-item\">",
     "                        <div class=\"label\">Phone</div>",
     "                        <div class=\"value\">" ++ candidate.phone ++ "</div>",
     "                    </div>",
     "                    <div class=\"info-item\">",
     "                        <div class=\"label\">Applied Role</div>",
     "                        <div class=\"value\">" ++ candidate.applied_role ++ "</div>",
     "                    </div>",
     "                    <div class=\"info-item\">",
     "                        <div class=\"label\">Experience</div>",
     "                        <div class=\"value\">" ++ candidate.experience ++ "</div>",
     "                    </div>",
     "                    <div class=\"info-item\">",
     "                        <div class=\"label\">Status</div>",
     "                        <div class=\"value\"><span class=\"status\">" ++
       candidate.status ++ "</span></div>",
     "                    </div>",
     "                    <div class=\"info-item\">",
     "                        <div class=\"label\">Current Stage</div>",
     "                        <div class=\"value\">" ++ candidate.stage ++ "</div>",
     "                    </div>",
     "                    <div class=\"info-item\">",
     "                        <div class=\"label\">Rating</div>",
     "                        <div class=\"value\">" ++ ratStrPy candidate.rating ++ " / 5.0</div>",
     "                    </div>",
     "                    <div class=\"info-item\">",
     "                        <div class=\"label\">Location</div>",
     "                        <div class=\"value\">" ++ candidate.location.getD "Not specified" ++
       "</div>",
     "                    </div>",
     "                    <div class=\"info-item\">",
     "                        <div class=\"label\">Application Date</div>",
     "                        <div class=\"value\">" ++ strftimeLong candidate.application_date ++
       "</div>",
     "                    </div>",
     "                </div>",
     "                <div class=\"section\">",
     "                    <h2>Basic Information</h2>",
     "                    <div class=\"info-item\">",
     "                        <div class=\"value\">" ++ candidate.basic_info.getD "Not provided" ++
       "</div>",
     "                    </div>",
     "                </div>",
     "                " ++ skills_section,
     "                " ++ education_section,
     "                " ++ experience_section,
     "                " ++ projects_section,
     "                " ++ url_section,
     "            </body>",
     "        </html>",
     "        "]

/-- Everything `generate_pdf` hands to the response for one candidate:
the section strings, the href targets in composition order, the composed
HTML, and the attachment filename. -/
structure PdfDoc where
  url_section : String
  skills_section : String
  education_section : String
  experience_section : String
  projects_section : String
  url_hrefs : List String
  project_hrefs : List String
  html_content : String
  filename : String

/-- Renders one resolved candidate row, `none` when some step raises into
the generic `except Exception` handler. The steps run in source order:
link map first, then the joint decode of the four profile columns, then
each section. -/
def renderCandidate (candidate_id : Nat) (candidate : Candidate) : Option PdfDoc :=
  match urlSectionOf candidate.urls with
  | none => none
  | some (url_section, url_hrefs) =>
    match parseProfileFields candidate with
    | (skills, education, experience_details, projects) =>
      match skillsSectionOf skills with
      | none => none
      | some skills_section =>
        match eduSectionOf education with
        | none => none
        | some education_section =>
          match expSectionOf experience_details with
          | none => none
          | some experience_section =>
            match projSectionOf projects with
            | none => none
            | some (projects_section, project_hrefs) =>
              some
                { url_section := url_section
                  skills_section := skills_section
                  education_section := education_section
                  experience_section := experience_section
                  projects_section := projects_section
                  url_hrefs := url_hrefs
                  project_hrefs := project_hrefs
                  html_content := htmlContentOf candidate skills_section education_section
                    experience_section projects_section url_section
                  filename := pyReplaceChar ' ' "_" candidate.name ++ "_" ++
                    toString candidate_id ++ ".pdf" }

/-- Model of the `GET /candidates/{id}/pdf/` handler: resolve the row (404
when absent), render (raised `HTTPException`s re-raise unchanged; any
other exception becomes the generic 500, whose detail the source suffixes
with the Python exception text). The `weasyprint` conversion of the
composed HTML is the external collaborator the model stops at. -/
def generate_pdf (candidate_id : Nat) (db : List Candidate) : Except HTTPError PdfDoc :=
  match db.find? (fun c => decide (c.id = candidate_id)) with
  | none => .error ⟨404, "Candidate not found"⟩
  | some candidate =>
    match renderCandidate candidate_id candidate with
    | some doc => .ok doc
    | none => .error ⟨500, "Error processing request"⟩

/-! ### Seeding: `seed_data` (main.py lines 688-880)

The six demo rows, verbatim. `application_date` is `datetime.now()`
minus a per-row day offset; the clock is an effect outside the model, so
the six resulting timestamps are parameters. Primary keys are assigned
by the store on insert; the model numbers the fresh table 1..6. -/

/-- Model of the `POST /seed/` handler: wipe the table, insert the six
demo candidates, commit. -/
def seed_data (t1 t2 t3 t4 t5 t6 : PyDateTime) (_db : List Candidate) : List Candidate :=
  [{ id := 1
     name := "Charlie Kristen"
     email := "charlie.k@example.com"
     phone := "+1234567890"
     applied_role := "Sr. UX Designer"
     experience := "5 years"
     status := "In Process"
     stage := "Design Challenge"
     rating := 4
     location := some "Bengaluru"
     application_date := t1
     urls := some (jsonDumps (.obj
       [("resume", .str "https://example.com/resume/charlie.pdf"),
        ("cover_letter", .str "https://example.com/cover/charlie.pdf"),
        ("project", .str "https://example.com/portfolio/charlie")]))
     attachments := 3
     basic_info := some "A creative designer with a passion for user-centered design."
     skills := some (jsonDumps (.arr
       [.str "Figma", .str "Sketch", .str "Prototyping", .str "User Research",
        .str "Design Systems"]))
     education := some (jsonDumps (.arr
       [.obj [("degree", .str "B.Des in Interaction Design"),
              ("institution", .str "National Institute of Design"),
              ("year_of_completion", .num 2018)]]))
     experience_details := some (jsonDumps (.arr
       [.obj [("company", .str "ABC Design Studio"), ("role", .str "UX Designer"),
              ("duration", .str "2018 - 2020"),
              ("description", .str "Redesigned e-commerce platforms, increasing user satisfaction by 25%.")],
        .obj [("company", .str "XYZ Tech"), ("role", .str "Senior UX Designer"),
              ("duration", .str "2020 - Present"),
              ("description", .str "Leading a team to build intuitive SaaS products.")]]))
     projects := some (jsonDumps (.arr
       [.obj [("name", .str "Mobile Banking Redesign"),
              ("description", .str "Overhauled UI/UX for a major bank's mobile app, reducing drop-off rates by 30%."),
              ("link", .str "https://example.com/projects/mobile-banking")]]))
     svg_photo := none },
   { id := 2
     name := "Malaika Brown"
     email := "malaika.b@example.com"
     phone := "+9876543210"
     applied_role := "Growth Manager"
     experience := "3 years"
     status := "In Process"
     stage := "Screening"
     rating := Rat.mk' 7 2
     location := some "Remote"
     application_date := t2
     urls := some (jsonDumps (.obj
       [("resume", .str "https://example.com/resume/malaika.pdf")]))
     attachments := 1
     basic_info := some "Enthusiastic growth marketer focused on user acquisition."
     skills := some (jsonDumps (.arr
       [.str "Growth Hacking", .str "A/B Testing", .str "Marketing Automation", .str "SEO"]))
     education := some (jsonDumps (.arr
       [.obj [("degree", .str "BBA in Marketing"),
              ("institution", .str "Stanford University"),
              ("year_of_completion", .num 2022)]]))
     experience_details := some (jsonDumps (.arr
       [.obj [("company", .str "StartUp Co."), ("role", .str "Growth Specialist"),
              ("duration", .str "2022 - Present"),
              ("description", .str "Increased user sign-ups by 40% through targeted campaigns.")]]))
     projects := some (jsonDumps (.arr
       [.obj [("name", .str "Referral Program Launch"),
              ("description", .str "Implemented a referral system that drove a 25% increase in new users."),
              ("link", .str "https://example.com/projects/referral-launch")]]))
     svg_photo := some "backend/test_files/malaikabrown.svg" },
   { id := 3
     name := "Simon Minter"
     email := "simon.m@example.com"
     phone := "+1122334455"
     applied_role := "Financial Analyst"
     experience := "4 years"
     status := "In Process"
     stage := "Design Challenge"
     rating := Rat.mk' 14 5
     location := some "Mumbai"
     application_date := t3
     urls := some (jsonDumps (.obj
       [("resume", .str "https://example.com/resume/simon.pdf"),
        ("project", .str "https://example.com/projects/simon")]))
     attachments := 2
     basic_info := some "Detail-oriented analyst with strong data visualization skills."
     skills := some (jsonDumps (.arr
       [.str "Excel Modeling", .str "Power BI", .str "Financial Forecasting",
        .str "Data Visualization"]))
     education := some (jsonDumps (.arr
       [.obj [("degree", .str "B.Com in Finance"),
              ("institution", .str "University of Mumbai"),
              ("year_of_completion", .num 2020)]]))
     experience_details := some (jsonDumps (.arr
       [.obj [("company", .str "Invest Corp"), ("role", .str "Junior Analyst"),
              ("duration", .str "2020 - 2022"),
              ("description", .str "Assisted in portfolio management.")],
        .obj [("company", .str "Market Insights Ltd"), ("role", .str "Financial Analyst"),
              ("duration", .str "2022 - Present"),
              ("description", .str "Developing financial models.")]]))
     projects := some (jsonDumps (.arr
       [.obj [("name", .str "Risk Analysis Dashboard"),
              ("description", .str "Created an interactive dashboard to track market risks."),
              ("link", .str "https://example.com/projects/risk-dashboard")]]))
     svg_photo := some "backend/test_files/simon.svg" },
   { id := 4
     name := "Ashley Brooke"
     email := "ashley.b@example.com"
     phone := "+5566778899"
     applied_role := "Financial Analyst"
     experience := "6 years"
     status := "In Process"
     stage := "HR Round"
     rating := Rat.mk' 9 2
     location := some "Mumbai"
     application_date := t4
     urls := some (jsonDumps (.obj
       [("resume", .str "https://example.com/resume/ashley.pdf"),
        ("cover_letter", .str "https://example.com/cover/ashley.pdf"),
        ("project", .str "https://example.com/portfolio/ashley")]))
     attachments := 3
     basic_info := some "Passionate about leveraging data to drive strategic financial decisions."
     skills := some (jsonDumps (.arr
       [.str "Financial Modeling", .str "Risk Management", .str "SQL", .str "Tableau"]))
     education := some (jsonDumps (.arr
       [.obj [("degree", .str "MBA in Finance"),
              ("institution", .str "IIM Ahmedabad"),
              ("year_of_completion", .num 2019)]]))
     experience_details := some (jsonDumps (.arr
       [.obj [("company", .str "Global Finance Solutions"), ("role", .str "Finance Associate"),
              ("duration", .str "2019 - 2021"),
              ("description", .str "Handled forecasting for international transactions.")],
        .obj [("company", .str "Prestige Analytics"), ("role", .str "Senior Financial Analyst"),
              ("duration", .str "2021 - Present"),
              ("description", .str "Leading a team to analyze complex financial instruments.")]]))
     projects := some (jsonDumps (.arr
       [.obj [("name", .str "Investment Portfolio Optimization"),
              ("description", .str "Managed a portfolio of investments and optimized returns."),
              ("link", .str "https://example.com/projects/investment-portfolio")]]))
     svg_photo := some "backend/test_files/ashley.svg" },
   { id := 5
     name := "Nishant Talwar"
     email := "nishant.t@example.com"
     phone := "+1098765432"
     applied_role := "Sr. UX Designer"
     experience := "7 years"
     status := "In Process"
     stage := "Round 2 Interview"
     rating := 5
     location := some "Bengaluru"
     application_date := t5
     urls := some (jsonDumps (.obj
       [("resume", .str "https://example.com/resume/nishant.pdf"),
        ("project", .str "https://example.com/portfolio/nishant")]))
     attachments := 2
     basic_info := some "Expert in creating intuitive user experiences with a deep understanding of design systems."
     skills := some (jsonDumps (.arr
       [.str "Adobe XD", .str "Wireframing", .str "User Interviews", .str "Design Systems"]))
     education := some (jsonDumps (.arr
       [.obj [("degree", .str "B.Tech in Computer Science"),
              ("institution", .str "IIT Delhi"),
              ("year_of_completion", .num 2016)]]))
     experience_details := some (jsonDumps (.arr
       [.obj [("company", .str "Alpha Tech"), ("role", .str "UI/UX Designer"),
              ("duration", .str "2016 - 2019"),
              ("description", .str "Developed user flows and wireframes for SaaS platforms.")],
        .obj [("company", .str "Designify Inc"), ("role", .str "Sr. UX Designer"),
              ("duration", .str "2019 - Present"),
              ("description", .str "Mentored junior designers and led design sprints.")]]))
     projects := some (jsonDumps (.arr
       [.obj [("name", .str "E-Commerce Redesign"),
              ("description", .str "Led a complete revamp of an e-commerce site, improving conversions by 35%."),
              ("link", .str "https://example.com/projects/ecommerce-redesign")]]))
     svg_photo := some "backend/test_files/nishant.svg" },
   { id := 6
     name := "Mark Jacobs"
     email := "mark.j@example.com"
     phone := "+2233445566"
     applied_role := "Growth Manager"
     experience := "2 years"
     status := "Rejected"
     stage := "Rejected"
     rating := 2
     location := some "Remote"
     application_date := t6
     urls := some (jsonDumps (.obj
       [("resume", .str "https://example.com/resume/mark.pdf")]))
     attachments := 1
     basic_info := some "Ambitious marketer with experience in early-stage startups."
     skills := some (jsonDumps (.arr
       [.str "Content Marketing", .str "Email Campaigns", .str "Market Research"]))
     education := some (jsonDumps (.arr
       [.obj [("degree", .str "BA in Marketing"),
              ("institution", .str "Harvard University"),
              ("year_of_completion", .num 2021)]]))
     experience_details := some (jsonDumps (.arr
       [.obj [("company", .str "NewWave Startup"), ("role", .str "Growth Associate"),
              ("duration", .str "2021 - 2022"),
              ("description", .str "Focused on email and social media strategies.")]]))
     projects := some (jsonDumps (.arr
       [.obj [("name", .str "Social Media Influencer Campaign"),
              ("description", .str "Collaborated with influencers to boost brand visibility."),
              ("link", .str "https://example.com/projects/social-influencer")]]))
     svg_photo := some "backend/test_files/mark.svg" }]

/-! ### Operation sequences over the store -/

/-- One request that mutates the store. -/
inductive StoreOp where
  | seedOp (t1 t2 t3 t4 t5 t6 : PyDateTime)
  | importOp (batch : List Descriptor) (now : PyDateTime)
  | updateOp (candidate_id : Nat) (update : CandidateUpdate)

/-- Store state after one request; a request that fails (raises before
its commit) leaves the store unchanged. -/
def applyOp (db : List Candidate) : StoreOp → List Candidate
  | .seedOp t1 t2 t3 t4 t5 t6 => seed_data t1 t2 t3 t4 t5 t6 db
  | .importOp batch now =>
    match import_candidates batch now db with
    | .ok db' => db'
    | .error _ => db
  | .updateOp cid u =>
    match update_status cid u db with
    | .ok p => p.2
    | .error _ => db

/-- Store state after a request sequence. -/
def runOps (db : List Candidate) (ops : List StoreOp) : List Candidate :=
  ops.foldl applyOp db

/-! ### Concrete inputs used by the witnesses and counterexamples -/

/-- A fixed timestamp standing in for the request clock. -/
def exNow : PyDateTime := ⟨2024, 1, 1, 0, 0, 0⟩

/-- A minimal stored row. -/
def exBase : Candidate :=
  { id := 1, name := "Ada B", email := "ada@example.com", phone := "+1",
    applied_role := "Dev", experience := "2 years", status := "Pending",
    application_date := ⟨2024, 3, 5, 10, 0, 0⟩, urls := none, rating := 4,
    stage := "Screening", location := none, attachments := 0,
    basic_info := none, skills := none, education := none,
    experience_details := none, projects := none, svg_photo := none }

/-- A stored education list that decodes fine. -/
def exEduJson : String :=
  "[\x7b\"degree\": \"B.Des\", \"institution\": \"NID\", \"year_of_completion\": 2018\x7d]"

/-- Row whose `skills` column is not JSON while its `education` column
decodes to a non-empty list. -/
def exInvalidSkills : Candidate :=
  { exBase with skills := some "not json", education := some exEduJson }

/-- The same row with the broken `skills` column cleared. -/
def exValidEdu : Candidate := { exBase with skills := none, education := some exEduJson }

/-- Row with one attachment URL and one project link, both containing
markup characters. -/
def exRawLink : Candidate :=
  { exBase with
    urls := some "\x7b\"resume\": \"http://e.com/x<y\"\x7d",
    projects :=
      some "[\x7b\"name\": \"P\", \"description\": \"D\", \"link\": \"http://e.com/a<b&c\"\x7d]" }

/-- An import descriptor carrying two of the three link fields and none
of the defaulted fields. -/
def exDescriptor : Descriptor :=
  [("name", .str "New Dev"), ("email", .str "new@example.com"), ("phone", .str "+2"),
   ("applied_role", .str "Dev"), ("experience", .str "1 year"),
   ("resume_url", .str "http://r.example/cv"), ("project_url", .str "http://p.example")]

/-- A descriptor missing the required `email` field. -/
def exBadDescriptor : Descriptor := [("name", .str "No Mail")]

/-- A second stored row, for sorting witnesses. -/
def exOther : Candidate :=
  { exBase with
    id := 2
    name := "Zoe A"
    email := "zoe@example.com"
    rating := Rat.mk' 7 2
    application_date := ⟨2024, 3, 7, 9, 0, 0⟩ }

/-- A canonically well-formed `YYYY-MM` parameter: four year digits, a
dash, two month digits. -/
def ymString (y m : Nat) : String := pad4 y ++ "-" ++ pad2 m

/-- Requests whose applied `status`/`stage` values stay inside the
enumerations: what the amended store invariant quantifies over, since
neither the update endpoint nor the import endpoint validates them. -/
def ValidatedOp : StoreOp → Prop
  | .seedOp _ _ _ _ _ _ => True
  | .importOp batch _ => ∀ d ∈ batch,
      pyStr ((descGet d "status").getD (.str "Pending")) ∈ STATUSES ∧
      pyStr ((descGet d "stage").getD (.str "Screening")) ∈ STAGES
  | .updateOp _ u =>
      (∀ s, u.status = some s → ¬s.data.isEmpty → s ∈ STATUSES) ∧
      (∀ s, u.stage = some s → ¬s.data.isEmpty → s ∈ STAGES)

/-! ### Lemmas about the lexicographic comparators -/

theorem lexLeBy_total {α : Type} (f : α → Nat) :
    ∀ xs ys, lexLeBy f xs ys = true ∨ lexLeBy f ys xs = true := by
  intro xs
  induction xs with
  | nil => intro ys; left; simp [lexLeBy]
  | cons a as_ ih =>
    intro ys
    cases ys with
    | nil => right; simp [lexLeBy]
    | cons b bs =>
      by_cases h1 : f a < f b
      · left; simp [lexLeBy, h1]
      · by_cases h2 : f b < f a
        · right; simp [lexLeBy, h2]
        · rcases ih bs with h | h
          · left; simp [lexLeBy, h1, h2, h]
          · right; simp [lexLeBy, h1, h2, h]

theorem lexLeBy_trans {α : Type} (f : α → Nat) :
    ∀ xs ys zs, lexLeBy f xs ys = true → lexLeBy f ys zs = true →
      lexLeBy f xs zs = true := by
  intro xs
  induction xs with
  | nil => intro ys zs _ _; simp [lexLeBy]
  | cons a as_ ih =>
    intro ys zs hxy hyz
    cases ys with
    | nil => simp [lexLeBy] at hxy
    | cons b bs =>
      cases zs with
      | nil => simp [lexLeBy] at hyz
      | cons c cs =>
        by_cases hab : f a < f b
        · by_cases hbc : f b < f c
          · have hac : f a < f c := by omega
            simp [lexLeBy, hac]
          · have hcb : ¬ f c < f b := by
              intro hcb; simp [lexLeBy, hbc, hcb] at hyz
            have hac : f a < f c := by omega
            simp [lexLeBy, hac]
        · have hba : ¬ f b < f a := by
            intro hba; simp [lexLeBy, hab, hba] at hxy
          have hxy' : lexLeBy f as_ bs = true := by
            simpa [lexLeBy, hab, hba] using hxy
          by_cases hbc : f b < f c
          · have hac : f a < f c := by omega
            simp [lexLeBy, hac]
          · have hcb : ¬ f c < f b := by
              intro hcb; simp [lexLeBy, hbc, hcb] at hyz
            have hyz' : lexLeBy f bs cs = true := by
              simpa [lexLeBy, hbc, hcb] using hyz
            have hac : ¬ f a < f c := by omega
            have hca : ¬ f c < f a := by omega
            simp [lexLeBy, hac, hca, ih bs cs hxy' hyz']

theorem strLe_total (a b : String) : strLe a b = true ∨ strLe b a = true :=
  lexLeBy_total Char.toNat a.data b.data

theorem strLe_trans {a b c : String} (h1 : strLe a b = true) (h2 : strLe b c = true) :
    strLe a c = true :=
  lexLeBy_trans Char.toNat a.data b.data c.data h1 h2

theorem dateLe_total (a b : PyDateTime) : dateLe a b = true ∨ dateLe b a = true :=
  lexLeBy_total id a.key b.key

theorem dateLe_trans {a b c : PyDateTime} (h1 : dateLe a b = true)
    (h2 : dateLe b c = true) : dateLe a c = true :=
  lexLeBy_trans id a.key b.key c.key h1 h2

/-! ### Lemmas about `sortCandidates` -/

theorem sortCandidates_name (l : List Candidate) :
    sortCandidates "name" l = List.insertionSort (fun a b => nameLe a b = true) l := by
  simp [sortCandidates]

theorem sortCandidates_date (l : List Candidate) :
    sortCandidates "application_date" l =
      List.insertionSort (fun a b => dateDesc a b = true) l := by
  simp [sortCandidates]

theorem sortCandidates_rating (l : List Candidate) :
    sortCandidates "rating" l =
      List.insertionSort (fun a b => ratingDesc a b = true) l := by
  simp [sortCandidates]

theorem chain'_sortCandidates_name (l : List Candidate) :
    (sortCandidates "name" l).Chain' (fun a b => strLe a.name b.name = true) := by
  rw [sortCandidates_name]
  haveI : IsTotal Candidate (fun a b => nameLe a b = true) :=
    ⟨fun a b => strLe_total a.name b.name⟩
  haveI : IsTrans Candidate (fun a b => nameLe a b = true) :=
    ⟨fun _ _ _ h1 h2 => strLe_trans h1 h2⟩
  have h := (List.sorted_insertionSort (fun a b => nameLe a b = true) l).chain'
  exact h.imp fun _ _ hab => hab

theorem chain'_sortCandidates_date (l : List Candidate) :
    (sortCandidates "application_date" l).Chain'
      (fun a b => dateLe b.application_date a.application_date = true) := by
  rw [sortCandidates_date]
  haveI : IsTotal Candidate (fun a b => dateDesc a b = true) :=
    ⟨fun a b => by
      simpa [dateDesc] using dateLe_total b.application_date a.application_date⟩
  haveI : IsTrans Candidate (fun a b => dateDesc a b = true) :=
    ⟨fun _ _ _ h1 h2 => dateLe_trans h2 h1⟩
  have h := (List.sorted_insertionSort (fun a b => dateDesc a b = true) l).chain'
  exact h.imp fun _ _ hab => hab

theorem chain'_sortCandidates_rating (l : List Candidate) :
    (sortCandidates "rating" l).Chain' (fun a b => b.rating ≤ a.rating) := by
  rw [sortCandidates_rating]
  haveI : IsTotal Candidate (fun a b => ratingDesc a b = true) :=
    ⟨fun a b => by simp [ratingDesc]; exact le_total b.rating a.rating⟩
  haveI : IsTrans Candidate (fun a b => ratingDesc a b = true) :=
    ⟨fun a b c h1 h2 => by
      simp [ratingDesc] at h1 h2 ⊢; exact le_trans h2 h1⟩
  have h := (List.sorted_insertionSort (fun a b => ratingDesc a b = true) l).chain'
  exact h.imp fun _ _ hab => by simpa [ratingDesc] using hab

theorem mem_sortCandidates {c : Candidate} {sort_by : String} {l : List Candidate} :
    c ∈ sortCandidates sort_by l ↔ c ∈ l := by
  unfold sortCandidates
  split_ifs <;> exact (List.perm_insertionSort _ l).mem_iff

/-! ### Lemmas about `filter_candidates` -/

theorem str_ne_empty_data {s : String} (h : s ≠ "") : s.data ≠ [] := by
  intro hd
  apply h
  cases s with
  | mk data => cases hd; rfl

theorem filter_ok_sorted {db : List Candidate} {role status stage search : Option String}
    {sort_by : String} {month_year : Option String} {l : List Candidate}
    (h : filter_candidates db role status stage search sort_by month_year = .ok l) :
    ∃ l0, l = sortCandidates sort_by l0 := by
  unfold filter_candidates at h
  repeat' split at h
  case _ => simp at h
  case _ => simp at h
  case _ => simp at h
  cases hmf : monthFilter (baseFilters db role status stage search) month_year with
  | error e => rw [hmf] at h; simp [Except.map] at h
  | ok l0 =>
    rw [hmf] at h
    simp only [Except.map, Except.ok.injEq] at h
    exact ⟨l0, h.symm⟩

theorem optTruthy_some_ne {s : String} (h : s ≠ "") : optTruthy (some s) = true := by
  simp [optTruthy, List.isEmpty_iff]
  exact str_ne_empty_data h

/-- C4: every result list of `filter_candidates` is ordered by the chosen
sort field: ascending lexicographic names for `name`, non-increasing
timestamps for `application_date`, non-increasing ratings for `rating`. -/
theorem filter_sort_ordering :
    ∀ (db : List Candidate) (role status stage search month_year : Option String)
      (l : List Candidate),
      (filter_candidates db role status stage search "name" month_year = .ok l →
        l.Chain' (fun a b => strLe a.name b.name = true)) ∧
      (filter_candidates db role status stage search "application_date" month_year = .ok l →
        l.Chain' (fun a b => dateLe b.application_date a.application_date = true)) ∧
      (filter_candidates db role status stage search "rating" month_year = .ok l →
        l.Chain' (fun a b => b.rating ≤ a.rating)) := by
  intro db role status stage search month_year l
  refine ⟨fun h => ?_, fun h => ?_, fun h => ?_⟩
  · obtain ⟨l0, rfl⟩ := filter_ok_sorted h
    exact chain'_sortCandidates_name l0
  · obtain ⟨l0, rfl⟩ := filter_ok_sorted h
    exact chain'_sortCandidates_date l0
  · obtain ⟨l0, rfl⟩ := filter_ok_sorted h
    exact chain'_sortCandidates_rating l0

/-- Witness for C4 at a concrete store. -/
theorem filter_sort_ordering_witness :
    (filter_candidates [exOther, exBase] none none none none "name" none =
        .ok [exBase, exOther] ∧
      List.Chain' (fun a b : Candidate => strLe a.name b.name = true) [exBase, exOther]) ∧
    (filter_candidates [exOther, exBase] none none none none "rating" none =
        .ok [exBase, exOther] ∧
      List.Chain' (fun a b : Candidate => b.rating ≤ a.rating) [exBase, exOther]) := by
  have h1 : filter_candidates [exOther, exBase] none none none none "name" none =
      .ok [exBase, exOther] := by rfl
  have h2 : filter_candidates [exOther, exBase] none none none none "rating" none =
      .ok [exBase, exOther] := by rfl
  exact ⟨⟨h1, (filter_sort_ordering [exOther, exBase] none none none none none
      [exBase, exOther]).1 h1⟩,
    ⟨h2, (filter_sort_ordering [exOther, exBase] none none none none none
      [exBase, exOther]).2.2 h2⟩⟩

/-- C2 (amended): a supplied non-empty `status` outside the status
enumeration, a supplied non-empty `stage` outside the stage enumeration
(with `status` passing), or a `sort_by` outside the sort fields (with
both passing) each yield the 400 validation error naming the parameter
and the allowed set; the handler performs no writes. An empty-string
`status`/`stage` is falsy and skips both the check and the filter. -/
theorem filter_invalid_param_errors :
    ∀ (db : List Candidate) (role status stage search month_year : Option String)
      (sort_by : String),
      (∀ s, status = some s → s ≠ "" → s ∉ STATUSES →
        filter_candidates db role status stage search sort_by month_year =
          .error ⟨400, "Invalid status. Must be one of: " ++ pyReprStrList STATUSES⟩) ∧
      (∀ s, ¬(optTruthy status = true ∧ status.getD "" ∉ STATUSES) →
        stage = some s → s ≠ "" → s ∉ STAGES →
        filter_candidates db role status stage search sort_by month_year =
          .error ⟨400, "Invalid stage. Must be one of: " ++ pyReprStrList STAGES⟩) ∧
      (¬(optTruthy status = true ∧ status.getD "" ∉ STATUSES) →
        ¬(optTruthy stage = true ∧ stage.getD "" ∉ STAGES) → sort_by ∉ SORT_FIELDS →
        filter_candidates db role status stage search sort_by month_year =
          .error ⟨400, "Invalid sort field. Must be one of: " ++ pyReprStrList SORT_FIELDS⟩) := by
  intro db role status stage search month_year sort_by
  refine ⟨?_, ?_, ?_⟩
  · intro s hs hne hnotin
    subst hs
    unfold filter_candidates
    rw [if_pos ⟨optTruthy_some_ne hne, by simpa using hnotin⟩]
  · intro s hstatus hs hne hnotin
    subst hs
    unfold filter_candidates
    rw [if_neg hstatus, if_pos ⟨optTruthy_some_ne hne, by simpa using hnotin⟩]
  · intro hstatus hstage hsort
    unfold filter_candidates
    rw [if_neg hstatus, if_neg hstage, if_pos hsort]

/-- Witness for C2 (amended) at concrete invalid parameters. -/
theorem filter_invalid_param_errors_witness :
    filter_candidates [exBase] none (some "Bogus") none none DEFAULT_SORT none =
      .error ⟨400, "Invalid status. Must be one of: " ++ pyReprStrList STATUSES⟩ ∧
    filter_candidates [exBase] none none (some "Nowhere") none DEFAULT_SORT none =
      .error ⟨400, "Invalid stage. Must be one of: " ++ pyReprStrList STAGES⟩ ∧
    filter_candidates [exBase] none none none none "phone" none =
      .error ⟨400, "Invalid sort field. Must be one of: " ++ pyReprStrList SORT_FIELDS⟩ := by
  refine ⟨?_, ?_, ?_⟩
  · exact (filter_invalid_param_errors [exBase] none (some "Bogus") none none none
      DEFAULT_SORT).1 "Bogus" rfl (by decide) (by decide)
  · exact (filter_invalid_param_errors [exBase] none none (some "Nowhere") none none
      DEFAULT_SORT).2.1 "Nowhere" (by decide) rfl (by decide) (by decide)
  · exact (filter_invalid_param_errors [exBase] none none none none none
      "phone").2.2 (by decide) (by decide) (by decide)

/-- C2 counterexample: the empty string is a status value outside the
enumeration, yet the request succeeds with a result list instead of a
validation error, because `if status:` treats it as absent. -/
theorem filter_empty_status_counterexample :
    filter_candidates [exBase] none (some "") none none DEFAULT_SORT none = .ok [exBase] ∧
    "" ∉ STATUSES := by
  exact ⟨by rfl, by decide⟩

/-! ### Lemmas about digit strings and `pyInt` -/

theorem charDigitVal_digitChar {n : Nat} (h : n < 10) :
    charDigitVal (digitChar n) = n := by
  interval_cases n <;> rfl

theorem isDigit_digitChar {n : Nat} (h : n < 10) : (digitChar n).isDigit = true := by
  interval_cases n <;> decide

theorem digitsVal_append_digit (xs : List Char) (c : Char) :
    digitsVal (xs ++ [c]) = 10 * digitsVal xs + charDigitVal c := by
  simp [digitsVal, List.foldl_append]
  omega

theorem digitsVal_natDigitsGo : ∀ fuel n, n < fuel →
    digitsVal (natDigitsGo fuel n) = n := by
  intro fuel
  induction fuel with
  | zero => omega
  | succ f ih =>
    intro n hn
    by_cases h10 : n < 10
    · simp [natDigitsGo, h10, digitsVal, charDigitVal_digitChar h10]
    · have hdiv : n / 10 < f := by omega
      simp [natDigitsGo, h10, digitsVal_append_digit, ih _ hdiv,
        charDigitVal_digitChar (Nat.mod_lt n (by omega))]
      omega

theorem natDigitsGo_all_digit : ∀ fuel n, n < fuel →
    ∀ c ∈ natDigitsGo fuel n, c.isDigit = true := by
  intro fuel
  induction fuel with
  | zero => omega
  | succ f ih =>
    intro n hn c hc
    by_cases h10 : n < 10
    · simp [natDigitsGo, h10] at hc
      exact hc ▸ isDigit_digitChar h10
    · have hdiv : n / 10 < f := by omega
      simp [natDigitsGo, h10] at hc
      rcases hc with hc | hc
      · exact ih _ hdiv c hc
      · exact hc ▸ isDigit_digitChar (Nat.mod_lt n (by omega))

theorem natDigitsGo_ne_nil : ∀ fuel n, n < fuel → natDigitsGo fuel n ≠ [] := by
  intro fuel
  induction fuel with
  | zero => omega
  | succ f _ =>
    intro n hn
    by_cases h10 : n < 10 <;> simp [natDigitsGo, h10]

theorem digitsVal_replicate_zero (k : Nat) (ds : List Char) :
    digitsVal (List.replicate k '0' ++ ds) = digitsVal ds := by
  induction k with
  | zero => rfl
  | succ j ih => simpa [digitsVal, List.replicate_succ] using ih

theorem digit_not_pyspace {c : Char} (h : c.isDigit = true) : isPySpace c = false := by
  have h1 : c ≠ ' ' := fun e => absurd (e ▸ h) (by decide)
  have h2 : c ≠ '\t' := fun e => absurd (e ▸ h) (by decide)
  have h3 : c ≠ '\n' := fun e => absurd (e ▸ h) (by decide)
  have h4 : c ≠ '\r' := fun e => absurd (e ▸ h) (by decide)
  have h5 : c ≠ '\x0b' := fun e => absurd (e ▸ h) (by decide)
  have h6 : c ≠ '\x0c' := fun e => absurd (e ▸ h) (by decide)
  simp [isPySpace, h1, h2, h3, h4, h5, h6]

theorem dropPySpace_no_space {cs : List Char}
    (h : ∀ c ∈ cs, isPySpace c = false) : dropPySpace cs = cs := by
  cases cs with
  | nil => rfl
  | cons c cs' => simp [dropPySpace, h c (by simp)]

theorem stripPySpace_no_space {cs : List Char}
    (h : ∀ c ∈ cs, isPySpace c = false) : stripPySpace cs = cs := by
  unfold stripPySpace
  rw [dropPySpace_no_space (fun c hc => h c (List.mem_reverse.mp hc))]
  rw [List.reverse_reverse]
  exact dropPySpace_no_space h

theorem pyInt_digits {ds : List Char} (hne : ds ≠ [])
    (hd : ∀ c ∈ ds, c.isDigit = true) : pyInt ds = some (digitsVal ds : Int) := by
  have hs := stripPySpace_no_space (fun c hc => digit_not_pyspace (hd c hc))
  cases ds with
  | nil => exact absurd rfl hne
  | cons c ds' =>
    have hc : c.isDigit = true := hd c (by simp)
    have hplus : ¬ c = '+' := fun e => absurd (e ▸ hc) (by decide)
    have hminus : ¬ c = '-' := fun e => absurd (e ▸ hc) (by decide)
    simp [pyInt, hs, hplus, hminus, List.all_eq_true.mpr hd]

/-! ### Lemmas about `pySplitChar` and `monthYearBounds` -/

theorem pySplitChar_no_sep {sep : Char} : ∀ {xs : List Char}, sep ∉ xs →
    pySplitChar sep xs = [xs] := by
  intro xs
  induction xs with
  | nil => intro _; rfl
  | cons c cs ih =>
    intro h
    have hc : ¬ c = sep := fun e => h (by simp [e])
    have hcs : sep ∉ cs := fun e => h (by simp [e])
    simp [pySplitChar, hc, ih hcs]

theorem pySplitChar_append {sep : Char} : ∀ {xs : List Char} (ys : List Char), sep ∉ xs →
    pySplitChar sep (xs ++ sep :: ys) = xs :: pySplitChar sep ys := by
  intro xs
  induction xs with
  | nil =>
    intro ys _
    simp [pySplitChar]
  | cons c cs ih =>
    intro ys h
    have hc : ¬ c = sep := fun e => h (by simp [e])
    have hcs : sep ∉ cs := fun e => h (by simp [e])
    simp [pySplitChar, hc, ih ys hcs]

theorem pad2_data (m : Nat) :
    (pad2 m).data = if m < 10 then '0' :: natDigitsGo (m + 1) m
      else natDigitsGo (m + 1) m := by
  by_cases h : m < 10 <;> simp [pad2, h, natStr]

theorem digitsVal_cons_zero (ds : List Char) : digitsVal ('0' :: ds) = digitsVal ds := by
  have := digitsVal_replicate_zero 1 ds
  simpa [List.replicate] using this

theorem pad2_all_digit (m : Nat) : ∀ c ∈ (pad2 m).data, c.isDigit = true := by
  rw [pad2_data]
  by_cases h : m < 10
  · rw [if_pos h]
    intro c hc
    rcases List.mem_cons.mp hc with hc | hc
    · exact hc ▸ (by decide)
    · exact natDigitsGo_all_digit _ _ (Nat.lt_succ_self m) c hc
  · rw [if_neg h]
    exact fun c hc => natDigitsGo_all_digit _ _ (Nat.lt_succ_self m) c hc

theorem pad2_ne_nil (m : Nat) : (pad2 m).data ≠ [] := by
  rw [pad2_data]
  by_cases h : m < 10
  · rw [if_pos h]; simp
  · rw [if_neg h]; exact natDigitsGo_ne_nil _ _ (Nat.lt_succ_self m)

theorem digitsVal_pad2 (m : Nat) : digitsVal (pad2 m).data = m := by
  rw [pad2_data]
  by_cases h : m < 10
  · rw [if_pos h, digitsVal_cons_zero, digitsVal_natDigitsGo _ _ (Nat.lt_succ_self m)]
  · rw [if_neg h, digitsVal_natDigitsGo _ _ (Nat.lt_succ_self m)]

theorem pad4_data (y : Nat) :
    (pad4 y).data =
      List.replicate (4 - (natDigitsGo (y + 1) y).length) '0' ++ natDigitsGo (y + 1) y := by
  simp [pad4]

theorem pad4_all_digit (y : Nat) : ∀ c ∈ (pad4 y).data, c.isDigit = true := by
  rw [pad4_data]
  intro c hc
  rcases List.mem_append.mp hc with hc | hc
  · have := List.eq_of_mem_replicate hc
    exact this ▸ (by decide)
  · exact natDigitsGo_all_digit _ _ (Nat.lt_succ_self y) c hc

theorem pad4_ne_nil (y : Nat) : (pad4 y).data ≠ [] := by
  rw [pad4_data]
  intro h
  rcases List.append_eq_nil.mp h with ⟨_, h2⟩
  exact natDigitsGo_ne_nil _ _ (Nat.lt_succ_self y) h2

theorem digitsVal_pad4 (y : Nat) : digitsVal (pad4 y).data = y := by
  rw [pad4_data, digitsVal_replicate_zero,
    digitsVal_natDigitsGo _ _ (Nat.lt_succ_self y)]

theorem ymString_data (y m : Nat) :
    (ymString y m).data = (pad4 y).data ++ '-' :: (pad2 m).data := by
  simp [ymString, String.data_append]

/-- C3 parse direction: every canonically well-formed `YYYY-MM` string in
range is read as the half-open month window, with December rolling into
January of the next year. -/
theorem monthYearBounds_wellFormed (y m : Nat) (hm1 : 1 ≤ m) (hm2 : m ≤ 12)
    (hy1 : 1900 ≤ y) (hy2 : y ≤ 9999) :
    monthYearBounds (ymString y m) =
      some (pyDatetime y m,
        if m = 12 then pyDatetime (y + 1) 1 else pyDatetime y (m + 1)) := by
  have hnm : ('-' : Char) ∉ (pad4 y).data := fun hmem =>
    absurd (pad4_all_digit y '-' hmem) (by decide)
  have hnm2 : ('-' : Char) ∉ (pad2 m).data := fun hmem =>
    absurd (pad2_all_digit m '-' hmem) (by decide)
  unfold monthYearBounds
  rw [ymString_data, pySplitChar_append _ hnm, pySplitChar_no_sep hnm2]
  simp only [pyInt_digits (pad4_ne_nil y) (pad4_all_digit y),
    pyInt_digits (pad2_ne_nil m) (pad2_all_digit m), digitsVal_pad4, digitsVal_pad2]
  rw [if_pos (by omega)]
  simp only [Int.toNat_natCast]
  by_cases h12 : m = 12
  · subst h12
    norm_num
  · have hne : ¬ ((m : Int) = 12) := by exact_mod_cast h12
    simp [hne, h12]

theorem baseFilters_none (db : List Candidate) :
    baseFilters db none none none none = db := by
  simp [baseFilters, optTruthy]

theorem monthYearBounds_empty : monthYearBounds "" = none := by rfl

theorem filter_month_ok {db : List Candidate} {s : String} {st en : PyDateTime}
    (hb : monthYearBounds s = some (st, en)) :
    ∃ l, filter_candidates db none none none none DEFAULT_SORT (some s) = .ok l ∧
      ∀ c, c ∈ l ↔ c ∈ db ∧ dateLe st c.application_date = true ∧
        dateLt c.application_date en = true := by
  have hne : ¬ s.data.isEmpty = true := by
    intro he
    have hs : s = "" := by
      cases s with
      | mk d =>
        rw [List.isEmpty_iff] at he
        subst he
        decide
    rw [hs, monthYearBounds_empty] at hb
    exact Option.noConfusion hb
  unfold filter_candidates
  rw [if_neg (by simp [optTruthy]), if_neg (by simp [optTruthy]), if_neg (by decide)]
  rw [baseFilters_none]
  simp only [monthFilter, if_neg hne, hb]
  refine ⟨_, rfl, fun c => ?_⟩
  rw [mem_sortCandidates, List.mem_filter, Bool.and_eq_true]

theorem filter_month_bad {db : List Candidate} {s : String}
    (hb : monthYearBounds s = none) (hne : s ≠ "") :
    filter_candidates db none none none none DEFAULT_SORT (some s) =
      .error ⟨400, "Invalid month_year format. Must be YYYY-MM"⟩ := by
  unfold filter_candidates
  rw [if_neg (by simp [optTruthy]), if_neg (by simp [optTruthy]), if_neg (by decide)]
  have hdata : ¬ s.data.isEmpty = true := by
    intro he
    exact str_ne_empty_data hne (List.isEmpty_iff.mp he)
  simp only [monthFilter, if_neg hdata, hb]
  rfl

/-- C3 (amended): every canonically well-formed `YYYY-MM` value in range
is parsed into the half-open month window (December rolling into January
of `year + 1`), and the filter keeps exactly the candidates whose
application timestamp lies in that window; every non-empty `month_year`
the parse rejects yields the 400 validation error. (An empty `month_year`
parameter is falsy and is silently skipped, as the counterexample
records.) -/
theorem filter_month_year_window :
    (∀ y m, 1 ≤ m → m ≤ 12 → 1900 ≤ y → y ≤ 9999 →
      monthYearBounds (ymString y m) =
        some (pyDatetime y m,
          if m = 12 then pyDatetime (y + 1) 1 else pyDatetime y (m + 1))) ∧
    (∀ (db : List Candidate) (s : String) (st en : PyDateTime),
      monthYearBounds s = some (st, en) →
      ∃ l, filter_candidates db none none none none DEFAULT_SORT (some s) = .ok l ∧
        ∀ c, c ∈ l ↔ c ∈ db ∧ dateLe st c.application_date = true ∧
          dateLt c.application_date en = true) ∧
    (∀ (db : List Candidate) (s : String),
      monthYearBounds s = none → s ≠ "" →
      filter_candidates db none none none none DEFAULT_SORT (some s) =
        .error ⟨400, "Invalid month_year format. Must be YYYY-MM"⟩) :=
  ⟨monthYearBounds_wellFormed, fun _ _ _ _ hb => filter_month_ok hb,
   fun _ _ hb hne => filter_month_bad hb hne⟩

/-- Witness for C3 (amended) at `2024-12`, `2024-13` and `2024-03`. -/
theorem filter_month_year_window_witness :
    ymString 2024 12 = "2024-12" ∧
    monthYearBounds "2024-12" =
      some (⟨2024, 12, 1, 0, 0, 0⟩, ⟨2025, 1, 1, 0, 0, 0⟩) ∧
    filter_candidates [exBase] none none none none DEFAULT_SORT (some "2024-13") =
      .error ⟨400, "Invalid month_year format. Must be YYYY-MM"⟩ ∧
    (∃ l, filter_candidates [exBase] none none none none DEFAULT_SORT (some "2024-03") =
        .ok l ∧
      ∀ c, c ∈ l ↔ c ∈ [exBase] ∧
        dateLe ⟨2024, 3, 1, 0, 0, 0⟩ c.application_date = true ∧
        dateLt c.application_date ⟨2024, 4, 1, 0, 0, 0⟩ = true) := by
  refine ⟨by decide, ?_, ?_, ?_⟩
  · have h := filter_month_year_window.1 2024 12 (by decide) (by decide) (by decide) (by decide)
    rw [show ymString 2024 12 = "2024-12" by decide] at h
    simpa using h
  · exact filter_month_year_window.2.2 [exBase] "2024-13" (by rfl) (by decide)
  · exact filter_month_year_window.2.1 [exBase] "2024-03"
      ⟨2024, 3, 1, 0, 0, 0⟩ ⟨2024, 4, 1, 0, 0, 0⟩ (by rfl)

/-- C3 counterexample: the empty string is a malformed `month_year`
(the parse rejects it), yet the request succeeds with the window filter
silently skipped, because `if month_year:` treats the empty string as
absent. -/
theorem filter_empty_month_year_counterexample :
    filter_candidates [exBase] none none none none DEFAULT_SORT (some "") = .ok [exBase] ∧
    monthYearBounds "" = none := ⟨by rfl, by rfl⟩

/-- C6: an update that supplies only a rating leaves every other stored
field of the target unchanged (the result is the found row with only
`rating` replaced) and leaves all other rows in the store. -/
theorem update_rating_only_frame :
    ∀ (db : List Candidate) (candidate_id : Nat) (c : Candidate) (r : Rat),
      db.find? (fun x => decide (x.id = candidate_id)) = some c →
      update_status candidate_id ⟨none, none, some r⟩ db =
        .ok ({ c with rating := r },
          db.map fun x => if x.id = candidate_id then { c with rating := r } else x) ∧
      ({ c with rating := r }).status = c.status ∧
      ({ c with rating := r }).stage = c.stage ∧
      (∀ x ∈ db, x.id ≠ candidate_id →
        x ∈ db.map fun x => if x.id = candidate_id then { c with rating := r } else x) := by
  intro db candidate_id c r hf
  refine ⟨?_, rfl, rfl, ?_⟩
  · unfold update_status
    rw [hf]
    rfl
  · intro x hx hne
    refine List.mem_map.mpr ⟨x, hx, ?_⟩
    rw [if_neg hne]

/-- Witness for C6 at a concrete two-row store. -/
theorem update_rating_only_frame_witness :
    update_status 1 ⟨none, none, some 2⟩ [exBase, exOther] =
      .ok ({ exBase with rating := 2 }, [{ exBase with rating := 2 }, exOther]) := by
  have h := (update_rating_only_frame [exBase, exOther] 1 exBase 2 (by rfl)).1
  exact h.trans (by rfl)

/-- C10: an update whose `status` and `stage` are the empty string
succeeds and changes nothing (both fields fail the truthiness test),
while a rating of `0.0` is applied, being compared against `None` rather
than tested for truthiness. -/
theorem update_empty_string_truthiness :
    ∀ (db : List Candidate) (candidate_id : Nat) (c : Candidate),
      db.find? (fun x => decide (x.id = candidate_id)) = some c →
      (update_status candidate_id ⟨some "", some "", none⟩ db =
        .ok (c, db.map fun x => if x.id = candidate_id then c else x)) ∧
      (update_status candidate_id ⟨none, none, some 0⟩ db =
        .ok ({ c with rating := 0 },
          db.map fun x => if x.id = candidate_id then { c with rating := 0 } else x)) := by
  intro db candidate_id c hf
  constructor <;> (unfold update_status; rw [hf]; rfl)

/-- Witness for C10 at a concrete store. -/
theorem update_empty_string_truthiness_witness :
    update_status 1 ⟨some "", some "", none⟩ [exBase] = .ok (exBase, [exBase]) ∧
    update_status 1 ⟨none, none, some 0⟩ [exBase] =
      .ok ({ exBase with rating := 0 }, [{ exBase with rating := 0 }]) := by
  have h := update_empty_string_truthiness [exBase] 1 exBase (by rfl)
  exact ⟨h.1.trans (by rfl), h.2.trans (by rfl)⟩


/-! ### Lemmas about `import_candidates` -/

theorem mapM_singleton_some {α β : Type} {f : α → Option β} {a : α} {b : β}
    (h : f a = some b) : List.mapM f [a] = some [b] := by
  rw [List.mapM_cons, h]
  rfl

/-- C7: a descriptor imported with the five required fields, none of the
defaulted fields, and the given three optional link fields inserts
exactly one row: its link map holds exactly the present link entries (in
`resume`, `cover_letter`, `project` order), `attachments` equals their
count, and `status`, `stage`, `rating` default to `"Pending"`,
`"Screening"` and `0.0`. -/
theorem import_links_and_defaults :
    ∀ (d : Descriptor) (db : List Candidate) (now : PyDateTime)
      (nm em ph ar ex : Json) (r cl pr : Option Json),
      descGet d "name" = some nm → descGet d "email" = some em →
      descGet d "phone" = some ph → descGet d "applied_role" = some ar →
      descGet d "experience" = some ex →
      descGet d "status" = none → descGet d "stage" = none →
      descGet d "rating" = none → descGet d "location" = none →
      descGet d "resume_url" = r → descGet d "cover_letter_url" = cl →
      descGet d "project_url" = pr →
      pyStr em ∉ db.map (fun c => c.email) → (db.map (fun c => c.email)).Nodup →
      (import_candidates [d] now db = .ok (db ++
        [{ id := nextId db
           name := pyStr nm
           email := pyStr em
           phone := pyStr ph
           applied_role := pyStr ar
           experience := pyStr ex
           status := "Pending"
           urls := if (linkEntries r cl pr).isEmpty then none
                   else some (jsonDumps (.obj (linkEntries r cl pr)))
           rating := 0
           stage := "Screening"
           location := none
           attachments := (linkEntries r cl pr).length
           application_date := now
           basic_info := none
           skills := none
           education := none
           experience_details := none
           projects := none
           svg_photo := none }])) ∧
      (linkEntries r cl pr).length =
        (if r.isSome then 1 else 0) + (if cl.isSome then 1 else 0) +
          (if pr.isSome then 1 else 0) := by
  intro d db now nm em ph ar ex r cl pr h1 h2 h3 h4 h5 h6 h7 h8 h9 h10 h11 h12 hni hnd
  refine ⟨?_, by cases r <;> cases cl <;> cases pr <;> simp [linkEntries]⟩
  have hrow : import_row d = some (fun id now =>
      { id := id
        name := pyStr nm
        email := pyStr em
        phone := pyStr ph
        applied_role := pyStr ar
        experience := pyStr ex
        status := "Pending"
        urls := if (linkEntries r cl pr).isEmpty then none
                else some (jsonDumps (.obj (linkEntries r cl pr)))
        rating := 0
        stage := "Screening"
        location := none
        attachments := (linkEntries r cl pr).length
        application_date := now
        basic_info := none
        skills := none
        education := none
        experience_details := none
        projects := none
        svg_photo := none }) := by
    unfold import_row
    rw [h1, h2, h3, h4, h5, h10, h11, h12, h8, h6, h7, h9]
    rfl
  have hmapM := mapM_singleton_some hrow
  unfold import_candidates
  rw [hmapM]
  simp only [List.enum, List.enumFrom, List.map, Nat.add_zero]
  rw [if_pos ?hc]
  case hc =>
    simp [List.nodup_append, hnd]
    intro x hx he
    exact hni (List.mem_map.mpr ⟨x, hx, he⟩)

/-- Witness for C7 at a concrete two-link descriptor. -/
theorem import_links_and_defaults_witness :
    (import_candidates [exDescriptor] exNow []).map
      (List.map fun c => (c.attachments, c.status, c.stage, c.rating, c.urls)) =
      .ok [(2, "Pending", "Screening", (0 : Rat),
        some "\x7b\"resume\": \"http://r.example/cv\", \"project\": \"http://p.example\"\x7d")] := by
  have h := (import_links_and_defaults exDescriptor [] exNow _ _ _ _ _ _ _ _
      rfl rfl rfl rfl rfl rfl rfl rfl rfl rfl rfl rfl (by simp) (by simp)).1
  rw [h]
  rfl

/-- Reading a descriptor with a required field missing raises
(`KeyError`). -/
theorem import_row_missing {d : Descriptor}
    (h : descGet d "name" = none ∨ descGet d "email" = none ∨ descGet d "phone" = none ∨
      descGet d "applied_role" = none ∨ descGet d "experience" = none) :
    import_row d = none := by
  rcases h with h | h | h | h | h
  · simp [import_row, h]
  · cases h1 : descGet d "name" <;> simp [import_row, h1, h]
  · cases h1 : descGet d "name" <;> cases h2 : descGet d "email" <;>
      simp [import_row, h1, h2, h]
  · cases h1 : descGet d "name" <;> cases h2 : descGet d "email" <;>
      cases h3 : descGet d "phone" <;> simp [import_row, h1, h2, h3, h]
  · cases h1 : descGet d "name" <;> cases h2 : descGet d "email" <;>
      cases h3 : descGet d "phone" <;> cases h4 : descGet d "applied_role" <;>
      simp [import_row, h1, h2, h3, h4, h]

/-- A failing element fails the whole traversal. -/
theorem mapM_none_of_mem {α β : Type} {f : α → Option β} :
    ∀ {batch : List α} {d : α}, d ∈ batch → f d = none → List.mapM f batch = none := by
  intro batch
  induction batch with
  | nil => intro d hd; exact absurd hd (by simp)
  | cons x xs ih =>
    intro d hd hf
    rcases List.mem_cons.mp hd with rfl | hd'
    · rw [List.mapM_cons, hf]
      rfl
    · rw [List.mapM_cons]
      cases hx : f x
      · rfl
      · rw [ih hd' hf]
        rfl

/-- C8: a batch containing a descriptor that is missing a required
field makes the whole import fail before its single commit, and the
store is left unchanged: no candidate of the batch is committed. -/
theorem import_malformed_aborts_batch :
    ∀ (batch : List Descriptor) (now : PyDateTime) (db : List Candidate) (d : Descriptor),
      d ∈ batch →
      (descGet d "name" = none ∨ descGet d "email" = none ∨ descGet d "phone" = none ∨
        descGet d "applied_role" = none ∨ descGet d "experience" = none) →
      import_candidates batch now db = .error ⟨500, "malformed candidate descriptor"⟩ ∧
      applyOp db (.importOp batch now) = db := by
  intro batch now db d hd hmiss
  have herr : import_candidates batch now db = .error ⟨500, "malformed candidate descriptor"⟩ := by
    unfold import_candidates
    rw [mapM_none_of_mem hd (import_row_missing hmiss)]
  exact ⟨herr, by simp only [applyOp, herr]⟩

/-- Witness for C8: a good descriptor followed by a bad one commits
nothing. -/
theorem import_malformed_aborts_batch_witness :
    import_candidates [exDescriptor, exBadDescriptor] exNow [exBase] =
      .error ⟨500, "malformed candidate descriptor"⟩ ∧
    applyOp [exBase] (.importOp [exDescriptor, exBadDescriptor] exNow) = [exBase] := by
  exact import_malformed_aborts_batch [exDescriptor, exBadDescriptor] exNow [exBase]
    exBadDescriptor (by simp) (Or.inr (Or.inl (by rfl)))

/-! ### Lemmas and claims about `generate_pdf` -/

/-- C1 (amended): the link map is decoded independently, but the four
profile columns share one `try`: a candidate whose `skills` column is
invalid JSON still renders successfully, with the skills, education,
experience and projects sections all omitted and the attachments section
untouched. -/
theorem generate_pdf_invalid_skills_renders :
    ∀ (db : List Candidate) (candidate_id : Nat) (c : Candidate) (s : String)
      (sec : String) (hrefs : List String),
      db.find? (fun x => decide (x.id = candidate_id)) = some c →
      c.skills = some s → ¬s.data.isEmpty → jsonParse s = none →
      urlSectionOf c.urls = some (sec, hrefs) →
      ∃ doc, generate_pdf candidate_id db = .ok doc ∧
        doc.skills_section = "" ∧ doc.education_section = "" ∧
        doc.experience_section = "" ∧ doc.projects_section = "" ∧
        doc.url_section = sec ∧ doc.url_hrefs = hrefs := by
  intro db candidate_id c s sec hrefs hf hs hsne hparse hurl
  have hfields : parseProfileFields c = (.arr [], .arr [], .arr [], .arr []) := by
    unfold parseProfileFields
    have hnone : optFieldJson c.skills = none := by
      rw [hs]
      simp [optFieldJson, hsne, hparse]
    rw [hnone]
  unfold generate_pdf
  rw [hf]
  dsimp only
  unfold renderCandidate
  rw [hurl, hfields]
  refine ⟨_, rfl, rfl, rfl, rfl, rfl, rfl, rfl⟩

/-- Witness for C1 (amended) on a stored row with unparsable skills. -/
theorem generate_pdf_invalid_skills_renders_witness :
    ∃ doc, generate_pdf 1 [exInvalidSkills] = .ok doc ∧
      doc.skills_section = "" ∧ doc.education_section = "" ∧
      doc.experience_section = "" ∧ doc.projects_section = "" ∧
      doc.url_section = "" ∧ doc.url_hrefs = [] := by
  exact generate_pdf_invalid_skills_renders [exInvalidSkills] 1 exInvalidSkills
    "not json" "" [] (by rfl) (by rfl) (by decide) (by rfl) (by rfl)

/-- C1 counterexample: a candidate whose `skills` column is invalid
JSON while its `education` column decodes to a non-empty list renders
with the education section omitted as well — the same education value
renders non-empty once the broken skills column is cleared, so the
optional fields are not parsed independently and more than the skills
section is lost. -/
theorem generate_pdf_joint_parse_counterexample :
    (generate_pdf 1 [exInvalidSkills]).map
        (fun d => (d.skills_section, d.education_section)) = .ok ("", "") ∧
    (jsonParse exEduJson).isSome = true ∧
    (generate_pdf 1 [exValidEdu]).map (fun d => d.education_section.data.isEmpty) =
      .ok false := ⟨by rfl, by rfl, by rfl⟩
/-! ### Lemmas about escaping and the rendered hyperlinks -/

/-- Replacing a character not reintroduced by its replacement removes
it. -/
theorem replaceCharData_no_old {old : Char} {new : List Char} (h : old ∉ new) :
    ∀ cs, old ∉ replaceCharData old new cs := by
  intro cs
  induction cs with
  | nil => simp [replaceCharData]
  | cons c cs' ih =>
    by_cases hc : c = old
    · simp [replaceCharData, hc, h, ih]
    · simp [replaceCharData, hc, ih]
      exact fun e => hc e.symm

/-- Replacement introduces no character that was in neither the input
nor the replacement. -/
theorem replaceCharData_no_other {d old : Char} {new : List Char} (hn : d ∉ new) :
    ∀ {cs : List Char}, d ∉ cs → d ∉ replaceCharData old new cs := by
  intro cs
  induction cs with
  | nil => intro _; simp [replaceCharData]
  | cons c cs' ih =>
    intro hd
    have hdc : d ≠ c := fun e => hd (by simp [e])
    have hdcs : d ∉ cs' := fun e => hd (by simp [e])
    by_cases hc : c = old
    · simp [replaceCharData, hc, hn, ih hdcs]
    · simp [replaceCharData, hc, ih hdcs]
      exact hdc
  
/-- An escaped URL carries no literal angle bracket. -/
theorem pyEscape_no_angle (s : String) :
    '<' ∉ (pyEscape s).data ∧ '>' ∉ (pyEscape s).data := by
  unfold pyEscape pyReplaceChar
  constructor
  · exact replaceCharData_no_other (by decide)
      (replaceCharData_no_old (by decide) _)
  · exact replaceCharData_no_old (by decide) _

/-- Every href target emitted for the link map is an escaped URL. -/
theorem urlItemsGo_hrefs :
    ∀ (kvs : List (String × Json)) (items hrefs : List String),
      urlItemsGo kvs = some (items, hrefs) →
      ∀ h ∈ hrefs, ∃ u, h = pyEscape u := by
  intro kvs
  induction kvs with
  | nil =>
    intro items hrefs h
    simp [urlItemsGo] at h
    intro x hx
    rw [h.2] at hx
    exact absurd hx (by simp)
  | cons kv rest ih =>
    intro items hrefs h
    obtain ⟨t, v⟩ := kv
    cases v with
    | str u =>
      have hred : urlItemsGo ((t, Json.str u) :: rest) =
          (urlItemsGo rest).map fun (p : List String × List String) =>
            (urlItemHtml t (pyEscape u) :: p.1, pyEscape u :: p.2) := rfl
      cases hrest : urlItemsGo rest with
      | none => rw [hred, hrest] at h; exact absurd h (by simp)
      | some p =>
        obtain ⟨its, hs⟩ := p
        rw [hred, hrest] at h
        simp only [Option.map_some', Option.some.injEq, Prod.mk.injEq] at h
        intro x hx
        rw [← h.2] at hx
        rcases List.mem_cons.mp hx with rfl | hx'
        · exact ⟨u, rfl⟩
        · exact ih its hs hrest x hx'
    | null =>
      rw [show urlItemsGo ((t, Json.null) :: rest) = none from rfl] at h
      exact absurd h (by simp)
    | bool b =>
      rw [show urlItemsGo ((t, Json.bool b) :: rest) = none from rfl] at h
      exact absurd h (by simp)
    | num n =>
      rw [show urlItemsGo ((t, Json.num n) :: rest) = none from rfl] at h
      exact absurd h (by simp)
    | arr xs =>
      rw [show urlItemsGo ((t, Json.arr xs) :: rest) = none from rfl] at h
      exact absurd h (by simp)
    | obj kvs2 =>
      rw [show urlItemsGo ((t, Json.obj kvs2) :: rest) = none from rfl] at h
      exact absurd h (by simp)

/-- Helper for the empty attachment section. -/
theorem empty_pair_hrefs {sec : String} {hrefs : List String}
    (h : some (("" : String), ([] : List String)) = some (sec, hrefs)) :
    ∀ x ∈ hrefs, ∃ u, x = pyEscape u := by
  injection h with h1
  injection h1 with h2 h3
  subst h3
  intro x hx
  exact absurd hx (by simp)

/-- Every href target of the attachments section is an escaped URL. -/
theorem urlSectionOf_hrefs {uopt : Option String} {sec : String} {hrefs : List String}
    (hu : urlSectionOf uopt = some (sec, hrefs)) :
    ∀ h ∈ hrefs, ∃ u, h = pyEscape u := by
  cases uopt with
  | none => exact empty_pair_hrefs hu
  | some s =>
    have hred : urlSectionOf (some s) =
        (if s.data.isEmpty = true then some ("", [])
         else
           let urls := match jsonParse s with | some v => v | none => Json.obj []
           if pyTruthy urls = true then
             match urls with
             | Json.obj kvs =>
               (urlItemsGo kvs).map fun (p : List String × List String) =>
                 (if p.1.isEmpty then "" else urlSectionHtml (String.join p.1), p.2)
             | _ => none
           else some ("", [])) := rfl
    rw [hred] at hu
    by_cases he : s.data.isEmpty = true
    · rw [if_pos he] at hu
      exact empty_pair_hrefs hu
    · rw [if_neg he] at hu
      cases hp : jsonParse s with
      | none =>
        rw [hp] at hu
        have hu2 : some (("" : String), ([] : List String)) = some (sec, hrefs) := hu
        exact empty_pair_hrefs hu2
      | some v =>
        rw [hp] at hu
        have hu2 : (if pyTruthy v = true then
            (match v with
             | Json.obj kvs =>
               (urlItemsGo kvs).map fun (p : List String × List String) =>
                 (if p.1.isEmpty then "" else urlSectionHtml (String.join p.1), p.2)
             | _ => none)
            else some ("", [])) = some (sec, hrefs) := hu
        by_cases ht : pyTruthy v = true
        · rw [if_pos ht] at hu2
          cases v with
          | obj kvs =>
            have hu3 : (urlItemsGo kvs).map (fun (p : List String × List String) =>
                (if p.1.isEmpty then "" else urlSectionHtml (String.join p.1), p.2)) =
                some (sec, hrefs) := hu2
            cases hitems : urlItemsGo kvs with
            | none => rw [hitems] at hu3; exact absurd hu3 (by simp)
            | some p =>
              obtain ⟨its, hs⟩ := p
              rw [hitems] at hu3
              rw [Option.map_some'] at hu3
              injection hu3 with h1
              injection h1 with h2 h3
              subst h3
              exact urlItemsGo_hrefs kvs its hs hitems
          | null => exact Option.noConfusion (show (none : Option (String × List String)) =
              some (sec, hrefs) from hu2)
          | bool b => exact Option.noConfusion (show (none : Option (String × List String)) =
              some (sec, hrefs) from hu2)
          | num n => exact Option.noConfusion (show (none : Option (String × List String)) =
              some (sec, hrefs) from hu2)
          | str s2 => exact Option.noConfusion (show (none : Option (String × List String)) =
              some (sec, hrefs) from hu2)
          | arr xs => exact Option.noConfusion (show (none : Option (String × List String)) =
              some (sec, hrefs) from hu2)
        · rw [if_neg ht] at hu2
          exact empty_pair_hrefs hu2


/-- The attachment href targets of a rendered document come from its
`urlSectionOf` step. -/
theorem renderCandidate_url_hrefs {candidate_id : Nat} {c : Candidate} {doc : PdfDoc}
    (h : renderCandidate candidate_id c = some doc) :
    ∃ sec, urlSectionOf c.urls = some (sec, doc.url_hrefs) := by
  unfold renderCandidate at h
  repeat' split at h
  all_goals try simp at h
  subst h
  exact ⟨_, by assumption⟩

/-- C5 (amended): every attachment-link href target in a rendered
document is the `&`/`<`/`>`-escaped form of a stored URL (in particular
it contains no raw angle bracket), while a project entry's link value is
embedded as the href target verbatim, without escaping. -/
theorem generate_pdf_href_escaping :
    (∀ (candidate_id : Nat) (db : List Candidate) (doc : PdfDoc),
      generate_pdf candidate_id db = .ok doc →
      ∀ h ∈ doc.url_hrefs, (∃ u, h = pyEscape u) ∧ '<' ∉ h.data ∧ '>' ∉ h.data) ∧
    (∀ nm ds lnk : String,
      projSectionOf (.arr [.obj [("name", .str nm), ("description", .str ds),
        ("link", .str lnk)]]) =
        some (gridSectionHtml "Projects" (String.join [projItemHtml nm ds lnk]), [lnk])) := by
  constructor
  · intro candidate_id db doc hok h hmem
    unfold generate_pdf at hok
    cases hf : db.find? (fun x => decide (x.id = candidate_id)) with
    | none => rw [hf] at hok; exact absurd hok (by simp)
    | some c =>
      rw [hf] at hok
      dsimp only at hok
      cases hr : renderCandidate candidate_id c with
      | none => rw [hr] at hok; exact absurd hok (by simp)
      | some doc' =>
        rw [hr] at hok
        simp only [Except.ok.injEq] at hok
        subst hok
        obtain ⟨sec, hsec⟩ := renderCandidate_url_hrefs hr
        obtain ⟨u, hu⟩ := urlSectionOf_hrefs hsec h hmem
        subst hu
        exact ⟨⟨u, rfl⟩, (pyEscape_no_angle u).1, (pyEscape_no_angle u).2⟩
  · intro nm ds lnk
    rfl

/-- C5 counterexample: a project link containing `<` and `&` reaches
the rendered document's href target unescaped, while the attachment URL
of the same candidate is escaped. -/
theorem generate_pdf_project_link_counterexample :
    (generate_pdf 1 [exRawLink]).map (fun d => d.project_hrefs) =
      .ok ["http://e.com/a<b&c"] ∧
    '<' ∈ "http://e.com/a<b&c".data ∧ '&' ∈ "http://e.com/a<b&c".data ∧
    (generate_pdf 1 [exRawLink]).map (fun d => d.url_hrefs) =
      .ok ["http://e.com/x&lt;y"] :=
  ⟨by rfl, by decide, by decide, by rfl⟩

/-- Witness for C5 (amended) at a concrete render. -/
theorem generate_pdf_href_escaping_witness :
    ((∃ u, "http://e.com/x&lt;y" = pyEscape u) ∧
      '<' ∉ "http://e.com/x&lt;y".data ∧ '>' ∉ "http://e.com/x&lt;y".data) ∧
    projSectionOf (.arr [.obj [("name", .str "P"), ("description", .str "D"),
      ("link", .str "http://e.com/a<b&c")]]) =
      some (gridSectionHtml "Projects"
        (String.join [projItemHtml "P" "D" "http://e.com/a<b&c"]),
        ["http://e.com/a<b&c"]) := by
  obtain ⟨doc, hdoc⟩ : ∃ doc, generate_pdf 1 [exRawLink] = .ok doc := ⟨_, rfl⟩
  have hl : doc.url_hrefs = ["http://e.com/x&lt;y"] := by
    have hm : (generate_pdf 1 [exRawLink]).map (fun d => d.url_hrefs) =
        .ok ["http://e.com/x&lt;y"] := by rfl
    rw [hdoc] at hm
    simpa [Except.map] using hm
  refine ⟨generate_pdf_href_escaping.1 1 [exRawLink] doc hdoc "http://e.com/x&lt;y"
    (by rw [hl]; simp), generate_pdf_href_escaping.2 "P" "D" "http://e.com/a<b&c"⟩

/-! ### Claims about the store enumeration invariant -/

/-- C9 counterexample: already after the seed operation alone, the store
holds a record (Nishant Talwar) whose stage is `"Round 2 Interview"`,
which is not in the stage enumeration, so the claimed invariant fails. -/
theorem seed_stage_invariant_counterexample :
    ¬ (∀ c ∈ runOps [] [StoreOp.seedOp exNow exNow exNow exNow exNow exNow],
        c.status ∈ STATUSES ∧ c.stage ∈ STAGES) := by
  intro hinv
  have hlen : 4 < (runOps [] [StoreOp.seedOp exNow exNow exNow exNow exNow exNow]).length := by
    decide
  have hmem := List.get_mem (runOps [] [StoreOp.seedOp exNow exNow exNow exNow exNow exNow])
    4 hlen
  have h := (hinv _ hmem).2
  have hst : ((runOps [] [StoreOp.seedOp exNow exNow exNow exNow exNow exNow]).get
      ⟨4, hlen⟩).stage = "Round 2 Interview" := by rfl
  rw [hst] at h
  exact absurd h (by decide)


/-- Every traversal result comes from some batch element. -/
theorem mapM_mem {α β : Type} {f : α → Option β} :
    ∀ {batch : List α} {mks : List β}, List.mapM f batch = some mks →
      ∀ mk ∈ mks, ∃ d ∈ batch, f d = some mk := by
  intro batch
  induction batch with
  | nil =>
    intro mks h
    have h2 : (some ([] : List β)) = some mks := h
    injection h2 with h3
    subst h3
    intro mk hmk
    exact absurd hmk (by simp)
  | cons x xs ih =>
    intro mks h
    rw [List.mapM_cons] at h
    cases hx : f x with
    | none => rw [hx] at h; exact absurd h (by simp)
    | some y =>
      rw [hx] at h
      cases hxs : List.mapM f xs with
      | none => rw [hxs] at h; exact absurd h (by simp)
      | some ys =>
        rw [hxs] at h
        have h2 : (some (y :: ys) : Option (List β)) = some mks := h
        injection h2 with h3
        subst h3
        intro mk hmk
        rcases List.mem_cons.mp hmk with rfl | hmk'
        · exact ⟨x, by simp, hx⟩
        · obtain ⟨d, hd, hfd⟩ := ih hxs mk hmk'
          exact ⟨d, by simp [hd], hfd⟩

/-- The status and stage an imported row stores. -/
theorem import_row_status_stage {d : Descriptor} {mk : Nat → PyDateTime → Candidate}
    (h : import_row d = some mk) :
    ∀ idv nowv, (mk idv nowv).status =
        pyStr ((descGet d "status").getD (.str "Pending")) ∧
      (mk idv nowv).stage = pyStr ((descGet d "stage").getD (.str "Screening")) := by
  intro idv nowv
  unfold import_row at h
  repeat' split at h
  all_goals
    first
      | exact Option.noConfusion h
      | (simp only [Option.some.injEq] at h
         subst h
         exact ⟨rfl, rfl⟩)

/-- A committed import only adds rows built from batch descriptors. -/
theorem import_ok_members {batch : List Descriptor} {now : PyDateTime}
    {db db' : List Candidate} (him : import_candidates batch now db = .ok db') :
    ∀ c ∈ db', c ∈ db ∨ ∃ d ∈ batch, ∃ mk, import_row d = some mk ∧
      ∃ idv nowv, c = mk idv nowv := by
  unfold import_candidates at him
  cases hm : List.mapM import_row batch with
  | none => rw [hm] at him; exact absurd him (by simp)
  | some mks =>
    rw [hm] at him
    have him2 : (if ((db ++ mks.enum.map fun p => p.2 (nextId db + p.1) now).map
          (fun x => x.email)).Nodup then
        Except.ok (db ++ mks.enum.map fun p => p.2 (nextId db + p.1) now)
      else (Except.error ⟨500, "UNIQUE constraint failed: candidates.email"⟩ :
        Except HTTPError (List Candidate))) = Except.ok db' := him
    by_cases hnd : ((db ++ mks.enum.map fun p => p.2 (nextId db + p.1) now).map
        (fun x => x.email)).Nodup
    · rw [if_pos hnd] at him2
      injection him2 with h3
      subst h3
      intro c hc
      rcases List.mem_append.mp hc with hc | hc
      · exact Or.inl hc
      · right
        obtain ⟨p, hp, hpc⟩ := List.mem_map.mp hc
        obtain ⟨i, mk⟩ := p
        have h3 := (List.mem_enumFrom hp).2.2
        have hlt := (List.mem_enumFrom hp).2.1
        have hmk : mk ∈ mks := by
          simp only [] at h3
          rw [h3]
          exact List.getElem_mem _
        obtain ⟨d, hd, hfd⟩ := mapM_mem hm mk hmk
        exact ⟨d, hd, mk, hfd, _, _, hpc.symm⟩
    · rw [if_neg hnd] at him2
      exact absurd him2 (by simp)

/-- The status stored by `update_status`'s field application. -/
theorem applyUpdate_status (u : CandidateUpdate) (c : Candidate) :
    (applyUpdate u c).status =
      (match u.status with
       | some s => if s.data.isEmpty then c.status else s
       | none => c.status) := by
  obtain ⟨st, sg, rt⟩ := u
  cases st <;> cases sg <;> cases rt <;>
    simp [applyUpdate] <;> split_ifs <;> rfl

/-- The stage stored by `update_status`'s field application. -/
theorem applyUpdate_stage (u : CandidateUpdate) (c : Candidate) :
    (applyUpdate u c).stage =
      (match u.stage with
       | some s => if s.data.isEmpty then c.stage else s
       | none => c.stage) := by
  obtain ⟨st, sg, rt⟩ := u
  cases st <;> cases sg <;> cases rt <;>
    simp [applyUpdate] <;> split_ifs <;> rfl

/-- Every seeded row has an enumerated status, and an enumerated stage
except for the one `"Round 2 Interview"` row. -/
theorem seed_rows_ok (t1 t2 t3 t4 t5 t6 : PyDateTime) (db : List Candidate) :
    ∀ c ∈ seed_data t1 t2 t3 t4 t5 t6 db,
      c.status ∈ STATUSES ∧ (c.stage ∈ STAGES ∨ c.stage = "Round 2 Interview") := by
  intro c hc
  simp only [seed_data, List.mem_cons, List.not_mem_nil, or_false] at hc
  rcases hc with rfl | rfl | rfl | rfl | rfl | rfl <;>
    exact ⟨by simp [STATUSES], by simp [STAGES]⟩

/-- One validated request preserves the relaxed enumeration
invariant. -/
theorem applyOp_preserves (db : List Candidate) (op : StoreOp)
    (hdb : ∀ c ∈ db, c.status ∈ STATUSES ∧ (c.stage ∈ STAGES ∨ c.stage = "Round 2 Interview"))
    (hop : ValidatedOp op) :
    ∀ c ∈ applyOp db op,
      c.status ∈ STATUSES ∧ (c.stage ∈ STAGES ∨ c.stage = "Round 2 Interview") := by
  cases op with
  | seedOp t1 t2 t3 t4 t5 t6 =>
    exact seed_rows_ok t1 t2 t3 t4 t5 t6 db
  | importOp batch now =>
    simp only [applyOp]
    cases him : import_candidates batch now db with
    | error e => exact hdb
    | ok db' =>
      intro c hc
      rcases import_ok_members him c hc with hc' | ⟨d, hd, mk, hfd, idv, nowv, rfl⟩
      · exact hdb c hc'
      · obtain ⟨hst, hsg⟩ := import_row_status_stage hfd idv nowv
        obtain ⟨hops, hopg⟩ := hop d hd
        exact ⟨hst ▸ hops, Or.inl (hsg ▸ hopg)⟩
  | updateOp cid u =>
    simp only [applyOp]
    cases hup : update_status cid u db with
    | error e => exact hdb
    | ok p =>
      intro c hc
      dsimp only at hc
      unfold update_status at hup
      cases hf : db.find? (fun x => decide (x.id = cid)) with
      | none => rw [hf] at hup; exact absurd hup (by simp)
      | some c0 =>
        rw [hf] at hup
        dsimp only at hup
        have hc0 : c0 ∈ db := List.mem_of_find?_eq_some hf
        injection hup with hpair
        have hp2 : p.2 = List.map (fun x => if x.id = cid then applyUpdate u c0 else x) db := by
          rw [← hpair]
        rw [hp2] at hc
        obtain ⟨x, hx, hxc⟩ := List.mem_map.mp hc
        by_cases hxid : x.id = cid
        · rw [if_pos hxid] at hxc
          rw [← hxc]
          constructor
          · rw [applyUpdate_status]
            cases hus : u.status with
            | none => exact (hdb c0 hc0).1
            | some s =>
              dsimp only
              by_cases hse : s.data.isEmpty
              · rw [if_pos hse]; exact (hdb c0 hc0).1
              · rw [if_neg hse]; exact hop.1 s hus hse
          · rw [applyUpdate_stage]
            cases hug : u.stage with
            | none => exact (hdb c0 hc0).2
            | some s =>
              dsimp only
              by_cases hse : s.data.isEmpty
              · rw [if_pos hse]; exact (hdb c0 hc0).2
              · rw [if_neg hse]; exact Or.inl (hop.2 s hug hse)
        · rw [if_neg hxid] at hxc
          rw [← hxc]
          exact hdb x hx

/-- C9 (amended): after any sequence of seed, import and update
requests in which every status/stage value applied by an update or
stored by an import lies in its enumeration, every record's status is in the
status enumeration and its stage is in the stage enumeration extended by
the seeded stray value `"Round 2 Interview"`; the unrelaxed claim fails
on the seed data, and neither update nor import validates these fields. -/
theorem store_enum_invariant_preserved :
    ∀ (ops : List StoreOp) (db : List Candidate),
      (∀ c ∈ db, c.status ∈ STATUSES ∧
        (c.stage ∈ STAGES ∨ c.stage = "Round 2 Interview")) →
      (∀ op ∈ ops, ValidatedOp op) →
      ∀ c ∈ runOps db ops,
        c.status ∈ STATUSES ∧ (c.stage ∈ STAGES ∨ c.stage = "Round 2 Interview") := by
  intro ops
  induction ops with
  | nil => intro db hdb _; exact hdb
  | cons op rest ih =>
    intro db hdb hops
    have h1 := applyOp_preserves db op hdb (hops op (by simp))
    exact ih (applyOp db op) h1 (fun o ho => hops o (by simp [ho]))

/-- Witness for C9 (amended) on a seed followed by a validated
update. -/
theorem store_enum_invariant_preserved_witness :
    ((runOps [] [StoreOp.seedOp exNow exNow exNow exNow exNow exNow,
        StoreOp.updateOp 1 ⟨some "Selected", some "Hired", some 5⟩]).all fun c =>
      decide (c.status ∈ STATUSES) &&
        (decide (c.stage ∈ STAGES) || decide (c.stage = "Round 2 Interview"))) = true := by
  have h := store_enum_invariant_preserved
    [StoreOp.seedOp exNow exNow exNow exNow exNow exNow,
      StoreOp.updateOp 1 ⟨some "Selected", some "Hired", some 5⟩] [] (by simp) ?hops
  case hops =>
    intro op hop
    rcases List.mem_cons.mp hop with rfl | hop2
    · trivial
    · rcases List.mem_cons.mp hop2 with rfl | hop3
      · refine ⟨fun s hs _ => ?_, fun s hs _ => ?_⟩
        · injection hs with h2
          rw [← h2]
          decide
        · injection hs with h2
          rw [← h2]
          decide
      · exact absurd hop3 (by simp)
  rw [List.all_eq_true]
  intro c hc
  obtain ⟨h1, h2⟩ := h c hc
  simp only [Bool.and_eq_true, Bool.or_eq_true, decide_eq_true_eq]
  exact ⟨h1, h2⟩
